import Mathlib

/-!
# Verification of the NewTerm configuration and plugin runtime

Shallow embedding of the configuration language parser
(`src/config_parser.py`), the configuration validator
(`src/config_validator.py`), the keybinding manager
(`src/keybinding_manager.py`) and the plugin manager
(`src/plugin_manager.py`) of the NewTerm terminal emulator, together with
proofs about the embedded functions.

Python dictionaries are modelled as insertion-ordered association lists
with unique keys (`Entries`); Python values appearing in configuration
documents are modelled by the inductive type `Val`.
-/

namespace NewTerm

mutual
/-- A Python value as it appears in NewTerm's nested configuration
documents: `None`, booleans, integers, floats, strings, lists, and
dicts.  A float is carried as its literal text: no claim depends on IEEE
arithmetic, only on a float being a non-dict, non-`None` value. -/
inductive Val : Type where
  | null : Val
  | bool : Bool → Val
  | int : Int → Val
  | float : String → Val
  | str : String → Val
  | list : List Val → Val
  | dict : Entries → Val

/-- The entry list of a Python dict, in insertion order.  Python
guarantees the keys of any one dict are distinct; that fact is carried
separately by `wfE`. -/
inductive Entries : Type where
  | nil : Entries
  | cons : String → Val → Entries → Entries
end

/-- Convenience conversion so that concrete documents can be written as
ordinary list literals. -/
def entries : List (String × Val) → Entries
  | [] => .nil
  | (k, v) :: rest => .cons k v (entries rest)

/-- First-match lookup, the embedding of `d[key]` / `d.get(key)` on a
Python dict (with unique keys, the first match is the only one). -/
def lookup : Entries → String → Option Val
  | .nil, _ => none
  | .cons k v rest, key => if k = key then some v else lookup rest key

/-- `d[key] = value` on a Python dict: replaces the value in place if the
key exists (keeping its position), appends at the end otherwise. -/
def setKey : Entries → String → Val → Entries
  | .nil, key, v => .cons key v .nil
  | .cons k v' rest, key, v =>
    if k = key then .cons k v rest else .cons k v' (setKey rest key v)

/-- List concatenation on entry lists. -/
def appendE : Entries → Entries → Entries
  | .nil, e => e
  | .cons k v rest, e => .cons k v (appendE rest e)

/-- `key in d`. -/
def containsE (d : Entries) (key : String) : Bool :=
  (lookup d key).isSome

/-- The keys of a dict, in order. -/
def keysE : Entries → List String
  | .nil => []
  | .cons k _ rest => k :: keysE rest

/-- Walks a key path through nested dicts: `lookupPath e [k1, ..., kn]`
is the value at `e[k1]...[kn]` when every intermediate value is a dict,
`none` otherwise (and `none` for the empty path). -/
def lookupPath : Entries → List String → Option Val
  | _, [] => none
  | e, [k] => lookup e k
  | e, k :: path =>
    match lookup e k with
    | some (Val.dict d) => lookupPath d path
    | _ => none

/-- `value is None`. -/
def isNullV : Val → Bool
  | .null => true
  | _ => false

/-- Python truthiness test `not d` on a dict: true iff it is empty. -/
def isEmptyE : Entries → Bool
  | .nil => true
  | _ => false

/-- A non-`None`, non-dict value: a boolean, integer, float, string or
list. -/
def scalarOrList : Val → Bool
  | .null => false
  | .dict _ => false
  | _ => true

mutual
/-- Well-formedness of a value: every dict anywhere inside it has
pairwise-distinct keys.  Every value built by Python code satisfies
this, since Python dicts cannot hold a key twice. -/
def wfV : Val → Bool
  | .list xs => wfL xs
  | .dict d => wfE d
  | _ => true

/-- Well-formedness of the elements of a list value. -/
def wfL : List Val → Bool
  | [] => true
  | v :: vs => wfV v && wfL vs

/-- Well-formedness of a dict: keys distinct, all values well-formed. -/
def wfE : Entries → Bool
  | .nil => true
  | .cons k v rest => !containsE rest k && wfV v && wfE rest
end

/-- Every value of the dict is a string (the shape of the default
keybindings table); lets lemmas about merged keybindings treat a
defaults-side hit uniformly. -/
def allStrE : Entries → Bool
  | .nil => true
  | .cons _ v rest =>
    (match v with
     | .str _ => true
     | _ => false) && allStrE rest

/-! ## Python string and number helpers

Embeddings of the pieces of Python string/number semantics the source
relies on: `str.strip`, `str.split`, `int(...)`, `float(...)`,
`str.strip(chars)`, and `str(...)` formatting of values.  They are
written over `List Char` (Lean's core `String` functions do not reduce
inside the kernel); `String.mk`/`String.data` convert at the borders.
-/

/-- A character Python's `str.strip()` removes: ASCII whitespace.
(Python also strips some unicode spaces; no input in any claim contains
those.) -/
def pyIsSpace (c : Char) : Bool :=
  c = ' ' || c = '\t' || c = '\n' || c = '\r' || c = '\x0b' || c = '\x0c'

/-- `str.strip()` on a character list. -/
def pyStripL (cs : List Char) : List Char :=
  ((cs.dropWhile pyIsSpace).reverse.dropWhile pyIsSpace).reverse

/-- Python `str.strip()` with no argument. -/
def pyStrip (s : String) : String := String.mk (pyStripL s.data)

/-- `s.startswith(c)` for a single-character prefix. -/
def startsWithChar (s : String) (c : Char) : Bool :=
  match s.data with
  | [] => false
  | c' :: _ => c' = c

/-- `s.endswith(c)` for a single-character suffix. -/
def endsWithChar (s : String) (c : Char) : Bool :=
  s.data.getLast? = some c

/-- `c in s` for a single character. -/
def containsChar (s : String) (c : Char) : Bool :=
  s.data.contains c

/-- `s.lower()` (ASCII). -/
def pyLower (s : String) : String := String.mk (s.data.map Char.toLower)

/-- `s[1:-1]`: the string without its first and last character. -/
def dropFirstLast (s : String) : String :=
  String.mk ((s.data.drop 1).dropLast)

/-- `s.split(sep)` for a single-character separator, on lists. -/
def splitCharAux (sep : Char) : List Char → List Char → List (List Char)
  | [], acc => [acc.reverse]
  | c :: rest, acc =>
    if c = sep then acc.reverse :: splitCharAux sep rest []
    else splitCharAux sep rest (c :: acc)

/-- `s.split(sep)` for a single-character separator. -/
def splitChar (s : String) (sep : Char) : List String :=
  (splitCharAux sep s.data []).map String.mk

/-- `s.split(sep, 1)` for a single-character separator: the text before
the first occurrence and the text after it (`none` when absent). -/
def splitFirst (s : String) (sep : Char) : String × Option String :=
  match s.data.span (fun c => !(c = sep)) with
  | (before, []) => (String.mk before, none)
  | (before, _ :: rest) => (String.mk before, some (String.mk rest))

/-- Digit runs as accepted inside Python numeric literals: a nonempty
sequence of decimal digits in which single underscores may appear
between two digits (`int("1_0")` is legal, `int("_1")`, `int("1_")`,
`int("1__0")` are not). -/
def digitsUTail : List Char → Bool
  | [] => true
  | '_' :: c :: rest => c.isDigit && digitsUTail rest
  | '_' :: [] => false
  | c :: rest => c.isDigit && digitsUTail rest

/-- See `digitsUTail`: a full digit run must start with a digit. -/
def digitsU : List Char → Bool
  | [] => false
  | c :: rest => c.isDigit && digitsUTail rest

/-- A hexadecimal digit, either case. -/
def isHexDigitChar (c : Char) : Bool :=
  c.isDigit || (('a' ≤ c && c ≤ 'f') || ('A' ≤ c && c ≤ 'F'))

/-- Hex-digit runs with the same underscore rule, for `int(s, 16)`. -/
def hexDigitsUTail : List Char → Bool
  | [] => true
  | '_' :: c :: rest => isHexDigitChar c && hexDigitsUTail rest
  | '_' :: [] => false
  | c :: rest => isHexDigitChar c && hexDigitsUTail rest

/-- See `hexDigitsUTail`. -/
def hexDigitsU : List Char → Bool
  | [] => false
  | c :: rest => isHexDigitChar c && hexDigitsUTail rest

/-- Drops one optional leading sign character. -/
def dropSign : List Char → List Char
  | '+' :: rest => rest
  | '-' :: rest => rest
  | cs => cs

/-- Whether `int(s)` succeeds in Python (base 10): optional surrounding
whitespace, an optional sign, then a digit run. -/
def pyIntAccepts (s : String) : Bool :=
  digitsU (dropSign (pyStripL s.data))

/-- The value of `int(s)` when it succeeds. -/
def pyIntMag (ds : List Char) : Nat :=
  (ds.filter (fun c => !(c = '_'))).foldl (fun a c => a * 10 + (c.toNat - '0'.toNat)) 0

/-- The value of `int(s)` when `pyIntAccepts s` holds. -/
def pyIntValue (s : String) : Int :=
  match pyStripL s.data with
  | '-' :: rest => -(pyIntMag rest : Int)
  | '+' :: rest => (pyIntMag rest : Int)
  | rest => (pyIntMag rest : Int)

/-- The digit part of `int(s, 16)` after the optional sign: an optional
`0x`/`0X` prefix (Python accepts it under an explicit base 16, with an
optional single underscore after it), then a hex-digit run. -/
def hexBody : List Char → Bool
  | '0' :: c :: rest =>
    if c = 'x' || c = 'X' then
      match rest with
      | '_' :: rest2 => hexDigitsU rest2
      | _ => hexDigitsU rest
    else hexDigitsU ('0' :: c :: rest)
  | cs => hexDigitsU cs

/-- Whether `int(s, 16)` succeeds in Python; only success matters to the
source (`_is_valid_color` discards the parsed value). -/
def pyIntHexAccepts (s : String) : Bool :=
  hexBody (dropSign (pyStripL s.data))

/-- The exponent part of a Python float literal: `e`/`E`, an optional
sign, a digit run. -/
def floatExpTail : List Char → Bool
  | [] => true
  | 'e' :: rest => digitsU (dropSign rest)
  | 'E' :: rest => digitsU (dropSign rest)
  | _ => false

/-- The mantissa-and-exponent part of a Python float literal (sign
already removed): `D`, `D.`, `D.D`, `.D`, each optionally followed by an
exponent, where `D` is a digit run. -/
def floatMantissa (cs : List Char) : Bool :=
  match cs.span (fun c => c.isDigit || c = '_') with
  | (intPart, rest) =>
    match rest with
    | '.' :: rest' =>
      match rest'.span (fun c => c.isDigit || c = '_') with
      | (fracPart, rest'') =>
        (if intPart.isEmpty then digitsU fracPart
         else digitsU intPart && (fracPart.isEmpty || digitsU fracPart)) &&
        floatExpTail rest''
    | _ => digitsU intPart && floatExpTail rest

/-- Whether `float(s)` succeeds in Python: optional whitespace and sign,
then `inf`/`infinity`/`nan` (case-insensitive) or a decimal literal with
optional fraction and exponent. -/
def pyFloatAccepts (s : String) : Bool :=
  let cs := dropSign (pyStripL s.data)
  let low := String.mk (cs.map Char.toLower)
  low = "inf" || low = "infinity" || low = "nan" || floatMantissa cs

/-- Python `str.strip(chars)`: repeatedly removes any of the given
characters from both ends. -/
def pyStripChars (s : String) (chars : List Char) : String :=
  String.mk (((s.data.dropWhile (chars.contains ·)).reverse.dropWhile
    (chars.contains ·)).reverse)

/-- `", ".join(parts)`. -/
def joinSep (sep : String) : List String → String
  | [] => ""
  | [x] => x
  | x :: rest => x ++ sep ++ joinSep sep rest

mutual
/-- Python `str(value)` as used in the source's f-strings.  For floats
the literal text is kept (Python would re-format it; no claim compares
float texts). -/
def pyStrV : Val → String
  | .null => "None"
  | .bool b => if b then "True" else "False"
  | .int n => toString n
  | .float lit => lit
  | .str s => s
  | .list xs => "[" ++ joinSep ", " (pyReprL xs) ++ "]"
  | .dict d => "\x7b" ++ joinSep ", " (pyReprE d) ++ "\x7d"

/-- Python `repr(value)`: like `str` but strings are quoted.  Quote
choice follows Python (single quotes unless the string contains a single
quote and no double quote); escaping of special characters inside the
string is not modelled, no claim exercises it. -/
def pyReprV : Val → String
  | .str s =>
    if containsChar s '\x27' && !containsChar s '"' then "\"" ++ s ++ "\""
    else "\x27" ++ s ++ "\x27"
  | .list xs => "[" ++ joinSep ", " (pyReprL xs) ++ "]"
  | .dict d => "\x7b" ++ joinSep ", " (pyReprE d) ++ "\x7d"
  | .null => "None"
  | .bool b => if b then "True" else "False"
  | .int n => toString n
  | .float lit => lit

/-- `repr` of each element of a list. -/
def pyReprL : List Val → List String
  | [] => []
  | v :: vs => pyReprV v :: pyReprL vs

/-- `repr` of each `key: value` pair of a dict. -/
def pyReprE : Entries → List String
  | .nil => []
  | .cons k v rest =>
    ("\x27" ++ k ++ "\x27: " ++ pyReprV v) :: pyReprE rest
end

/-! ## `ConfigParser` (`src/config_parser.py`)

The parser walks the list of lines with an index `i`, exactly like the
Python `while i < len(lines)` loops.  Each loop iteration advances `i`
by at least one, so a fuel of `lines.length` makes the fuelled loops
below run to the same completion as the Python loops. -/

namespace Cfg

/-- `ConfigParser._parse_array`: parses `[item1, item2]` into a list of
strings; items are stripped of whitespace and of surrounding quote
characters, empty items are dropped. -/
def parseArray (array_str : String) : List Val :=
  let inner := pyStrip (dropFirstLast array_str)
  if inner.data.isEmpty then []
  else
    ((splitChar inner ',').map
      (fun item => pyStripChars (pyStrip item) ['"', '\x27'])).filter
      (fun item => !item.data.isEmpty) |>.map Val.str

/-- `ConfigParser._parse_number`: `float(value)` when the text contains a
`.`, `int(value)` otherwise; on `ValueError` the raw text is returned as
a string (reachable: `"1e5"` passes `_is_number` but fails `int`). -/
def parseNumber (value : String) : Val :=
  if containsChar value '.' then
    if pyFloatAccepts value then Val.float value else Val.str value
  else
    if pyIntAccepts value then Val.int (pyIntValue value) else Val.str value

/-- `ConfigParser._is_number`: whether `float(value)` succeeds. -/
def isNumber (value : String) : Bool :=
  pyFloatAccepts value

/-- `ConfigParser._parse_key_value`: splits on the first `=`, strips both
sides, and types the value by content (booleans, `[...]` lists, quoted
strings, numbers, raw text). -/
def parseKeyValue (line : String) : Option String × Val :=
  if !containsChar line '=' then (none, Val.null)
  else
    match splitFirst line '=' with
    | (_, none) => (none, Val.null)
    | (keyPart, some valuePart) =>
      let key := pyStrip keyPart
      let value_part := pyStrip valuePart
      let v :=
        if pyLower value_part = "true" || pyLower value_part = "false" then
          Val.bool (pyLower value_part = "true")
        else if startsWithChar value_part '[' && endsWithChar value_part ']' then
          Val.list (parseArray value_part)
        else if startsWithChar value_part '"' && endsWithChar value_part '"' then
          Val.str (dropFirstLast value_part)
        else if isNumber value_part then
          parseNumber value_part
        else
          Val.str value_part
      (some key, v)

/-- `ConfigParser._parse_section`'s `while` loop: scans lines from index
`i` until a `}` line, collecting `key = value` pairs; anything else
non-blank is an "Unrecognized syntax in section" warning.  Returns the
section entries, the index after the section, and the warnings. -/
def parseSection (lines : List String) (i fuel : Nat) (acc : Entries)
    (ws : List String) : Entries × Nat × List String :=
  match fuel with
  | 0 => (acc, i, ws)
  | fuel + 1 =>
    match lines.get? i with
    | none => (acc, i, ws)
    | some raw =>
      let line := pyStrip raw
      if line = "\x7d" || (startsWithChar line '}' && endsWithChar line '}') then
        (acc, i + 1, ws)
      else if line.data.isEmpty || startsWithChar line '#' then
        parseSection lines (i + 1) fuel acc ws
      else if containsChar line '=' then
        match parseKeyValue line with
        | (some key, v) =>
          if !key.data.isEmpty then parseSection lines (i + 1) fuel (setKey acc key v) ws
          else parseSection lines (i + 1) fuel acc ws
        | (none, _) => parseSection lines (i + 1) fuel acc ws
      else
        parseSection lines (i + 1) fuel acc
          (ws ++ ["Line " ++ toString (i + 1) ++ ": Unrecognized syntax in section: " ++ line])

/-- `ConfigParser._parse_content`'s `while` loop.  Note the order of the
branches, taken from the source: the branch that skips `}`-starting and
`{`-ending lines comes before the key/value and section branches, so the
section branch below it can never run. -/
def parseContent (lines : List String) (i fuel : Nat) (config : Entries)
    (ws : List String) : Entries × List String :=
  match fuel with
  | 0 => (config, ws)
  | fuel + 1 =>
    match lines.get? i with
    | none => (config, ws)
    | some raw =>
      let line := pyStrip raw
      if line.data.isEmpty || startsWithChar line '#' then
        parseContent lines (i + 1) fuel config ws
      else if startsWithChar line '}' || endsWithChar line '{' then
        parseContent lines (i + 1) fuel config ws
      else if containsChar line '=' && !endsWithChar line '{' then
        match parseKeyValue line with
        | (some key, v) =>
          if !key.data.isEmpty then
            parseContent lines (i + 1) fuel (setKey config key v) ws
          else parseContent lines (i + 1) fuel config ws
        | (none, _) => parseContent lines (i + 1) fuel config ws
      else if endsWithChar line '{' then
        let section_name := pyStrip (String.mk line.data.dropLast)
        match parseSection lines (i + 1) lines.length .nil ws with
        | (section_content, new_i, ws') =>
          parseContent lines new_i fuel (setKey config section_name (Val.dict section_content)) ws'
      else
        parseContent lines (i + 1) fuel config
          (ws ++ ["Line " ++ toString (i + 1) ++ ": Unrecognized syntax: " ++ line])

/-- `ConfigParser.parse`: empty (after stripping) input yields the empty
document; otherwise the content is split on newlines and scanned.
Returns the document and the collected warnings.  (The `try/except` of
the source cannot fire in the pure embedding; `errors` stays empty.) -/
def parse (content : String) : Entries × List String :=
  if (pyStrip content).data.isEmpty then (.nil, [])
  else
    let lines := splitChar content '\n'
    parseContent lines 0 lines.length .nil []

end Cfg

/-! ## `ConfigValidator` (`src/config_validator.py`) -/

namespace Cv

/-- The default palette of `DEFAULT_CONFIG["theme"]`. -/
def defaultPalette : List Val := [
  Val.str "#000000", Val.str "#800000", Val.str "#008000", Val.str "#808000",
  Val.str "#000080", Val.str "#800080", Val.str "#008080", Val.str "#C0C0C0",
  Val.str "#808080", Val.str "#FF0000", Val.str "#00FF00", Val.str "#FFFF00",
  Val.str "#0000FF", Val.str "#FF00FF", Val.str "#00FFFF", Val.str "#FFFFFF"]

/-- The `"theme"` section of `DEFAULT_CONFIG`. -/
def defaultTheme : Entries := entries [
  ("background_color", Val.str "#000000"),
  ("foreground_color", Val.str "#FFFFFF"),
  ("cursor_color", Val.str "#FFFFFF"),
  ("palette", Val.list defaultPalette)]

/-- The `"font"` section of `DEFAULT_CONFIG`. -/
def defaultFont : Entries := entries [
  ("family", Val.str "Monospace"),
  ("size", Val.int 12)]

/-- The `"keybindings"` section of `DEFAULT_CONFIG`. -/
def defaultKeybindings : Entries := entries [
  ("copy", Val.str "<Ctrl><Shift>C"),
  ("paste", Val.str "<Ctrl><Shift>V"),
  ("new_tab", Val.str "<Ctrl><Shift>T"),
  ("close_tab", Val.str "<Ctrl><Shift>W"),
  ("next_tab", Val.str "<Ctrl>Page_Down"),
  ("prev_tab", Val.str "<Ctrl>Page_Up"),
  ("split_horizontal", Val.str "<Ctrl><Alt>H"),
  ("split_vertical", Val.str "<Ctrl><Alt>V"),
  ("close_pane", Val.str "<Ctrl><Alt>Q"),
  ("zoom_in", Val.str "<Ctrl>plus"),
  ("zoom_out", Val.str "<Ctrl>minus"),
  ("reset_zoom", Val.str "<Ctrl>0"),
  ("find", Val.str "<Ctrl><Shift>F"),
  ("command_palette", Val.str "<Ctrl><Shift>P"),
  ("preferences", Val.str "<Ctrl>comma"),
  ("toggle_fullscreen", Val.str "F11"),
  ("new_window", Val.str "<Ctrl><Shift>N"),
  ("quit", Val.str "<Ctrl><Alt>Q"),
  ("scroll_up", Val.str "<Ctrl><Shift>Up"),
  ("scroll_down", Val.str "<Ctrl><Shift>Down"),
  ("scroll_to_top", Val.str "<Ctrl>Home"),
  ("scroll_to_bottom", Val.str "<Ctrl>End"),
  ("page_up", Val.str "Page_Up"),
  ("page_down", Val.str "Page_Down"),
  ("select_all", Val.str "<Ctrl><Shift>A"),
  ("select_word", Val.str "<Ctrl><Alt>W"),
  ("select_line", Val.str "<Ctrl><Shift>L"),
  ("clear_selection", Val.str "Escape"),
  ("split_pane_h", Val.str "<Ctrl><Alt>H"),
  ("split_pane_v", Val.str "<Ctrl><Alt>V")]

/-- The `"plugins"` section of `DEFAULT_CONFIG`. -/
def defaultPlugins : Entries := entries [
  ("enabled", Val.list []),
  ("disabled", Val.list []),
  ("auto_load", Val.bool true)]

/-- The `"session"` section of `DEFAULT_CONFIG`. -/
def defaultSession : Entries := entries [
  ("max_tabs", Val.int 10),
  ("save_on_exit", Val.bool true),
  ("restore_on_start", Val.bool true)]

/-- The `"performance"` section of `DEFAULT_CONFIG`. -/
def defaultPerformance : Entries := entries [
  ("max_scrollback", Val.int 10000),
  ("terminal_bell", Val.bool true),
  ("cursor_blink", Val.bool true),
  ("cursor_shape", Val.str "block")]

/-- `ConfigValidator.DEFAULT_CONFIG` (config_validator.py lines 33-107),
with the section literals factored into the named definitions above. -/
def defaultConfig : Entries := entries [
  ("theme", Val.dict defaultTheme),
  ("font", Val.dict defaultFont),
  ("keybindings", Val.dict defaultKeybindings),
  ("scrollback_lines", Val.int 1000),
  ("gpu_acceleration", Val.bool true),
  ("restore_session", Val.bool true),
  ("show_menu_bar", Val.bool true),
  ("show_status_bar", Val.bool false),
  ("auto_save_session", Val.bool true),
  ("audible_bell", Val.bool false),
  ("urgent_bell", Val.bool true),
  ("mouse_autohide", Val.bool false),
  ("debug_mode", Val.bool false),
  ("log_commands", Val.bool false),
  ("plugins", Val.dict defaultPlugins),
  ("session", Val.dict defaultSession),
  ("performance", Val.dict defaultPerformance)]

/-- `ConfigValidator._merge_config`: merges the user entries into the
defaults.  For a key present in both: two dicts merge recursively,
except that an empty default dict is replaced wholesale (`if not
defaults[key]`); otherwise a non-`None` user value overrides and a
`None` keeps the default.  Keys only in the user config are appended. -/
def mergeConfig : Entries → Entries → Entries
  | d, .nil => d
  | d, .cons k v rest =>
    let d' :=
      match lookup d k, v with
      | none, _ => appendE d (.cons k v .nil)
      | some (Val.dict de), Val.dict ue =>
        if isEmptyE de then setKey d k (.dict ue)
        else setKey d k (.dict (mergeConfig de ue))
      | some _, _ => if isNullV v then d else setKey d k v
    mergeConfig d' rest
termination_by structural _ u => u

/-- The per-key result of `_merge_config` for a key present on both
sides; used to state lemmas about `mergeConfig`. -/
def mergeVal (dv uv : Val) : Val :=
  match dv, uv with
  | .dict de, .dict ue => if isEmptyE de then .dict ue else .dict (mergeConfig de ue)
  | _, _ => if isNullV uv then dv else uv

/-- `isinstance(x, int)` — in Python booleans are integers. -/
def pyIsInt : Val → Bool
  | .int _ => true
  | .bool _ => true
  | _ => false

/-- `isinstance(x, bool)`. -/
def pyIsBool : Val → Bool
  | .bool _ => true
  | _ => false

/-- The numeric value of a Python `int` (booleans count as 1/0); only
applied under a `pyIsInt` guard. -/
def pyIntNum : Val → Int
  | .int n => n
  | .bool b => if b then 1 else 0
  | _ => 0

/-- Whether all mantissa digits of a float literal are zero. -/
def mantissaAllZero (cs : List Char) : Bool :=
  ((cs.takeWhile (fun c => !(c = 'e' || c = 'E'))).filter Char.isDigit).all (· = '0')

/-- `float(lit) <= 0`, decided from the literal text: negative sign, or a
zero mantissa; `nan` compares false, and unsigned/plus-signed
infinities are positive. -/
def floatLitLeZero (lit : String) : Bool :=
  let cs := pyStripL lit.data
  let low := String.mk (cs.map Char.toLower)
  if low = "nan" || low = "+nan" || low = "-nan" then false
  else if low = "inf" || low = "+inf" || low = "infinity" || low = "+infinity" then
    false
  else
    match cs with
    | '-' :: rest => !(String.mk (rest.map Char.toLower) = "nan")
    | '+' :: rest => mantissaAllZero rest
    | rest => mantissaAllZero rest

/-- `x <= 0` for the values `isinstance(x, (int, float))` lets through
the font-size check. -/
def pyNumLeZero : Val → Bool
  | .int n => n ≤ 0
  | .bool b => !b
  | .float lit => floatLitLeZero lit
  | _ => false

/-- `isinstance(x, (int, float))`. -/
def pyIsNum : Val → Bool
  | .int _ => true
  | .bool _ => true
  | .float _ => true
  | _ => false

/-- `ConfigValidator._is_valid_color`: a string starting with `#` whose
remainder has length 3 or 6 and parses under `int(s, 16)`. -/
def isValidColor : Val → Bool
  | .str s =>
    startsWithChar s '#' &&
    (let rest := String.mk (s.data.drop 1)
     (rest.data.length = 3 || rest.data.length = 6) && pyIntHexAccepts rest)
  | _ => false

/-- `ConfigValidator._validate_theme`: warns on invalid colors and on a
palette that is not exactly 16 valid colors. -/
def validateTheme (theme : Val) : List String :=
  match theme with
  | .dict t =>
    (["background_color", "foreground_color", "cursor_color"].foldl
      (fun ws color_key =>
        match lookup t color_key with
        | some color =>
          if !isValidColor color then
            ws ++ ["Invalid color format for " ++ color_key ++ ": " ++ pyStrV color]
          else ws
        | none => ws) [])
    ++
    (match lookup t "palette" with
     | some (Val.list palette) =>
       (if !(palette.length = 16) then
         ["Palette should have 16 colors, got " ++ toString palette.length]
        else [])
       ++
       ((List.range palette.length).zip palette).foldl
         (fun ws ic =>
           if !isValidColor ic.2 then
             ws ++ ["Invalid color in palette at index " ++ toString ic.1 ++ ": " ++ pyStrV ic.2]
           else ws) []
     | _ => [])
  | _ => []

/-- `ConfigValidator._validate_font`. -/
def validateFont (font : Val) : List String :=
  match font with
  | .dict f =>
    (match lookup f "size" with
     | some size =>
       if !pyIsNum size || pyNumLeZero size then
         ["Font size should be a positive number, got: " ++ pyStrV size]
       else []
     | none => [])
    ++
    (match lookup f "family" with
     | some family =>
       match family with
       | .str fs =>
         if (pyStrip fs).data.isEmpty then
           ["Font family should be a non-empty string, got: " ++ fs]
         else []
       | _ => ["Font family should be a non-empty string, got: " ++ pyStrV family]
     | none => [])
  | _ => []

/-- The loop of `_validate_keybindings`. -/
def validateKeybindingsGo : Entries → List String
  | .nil => []
  | .cons action key_combo rest =>
    (match key_combo with
     | .str s =>
       if (pyStrip s).data.isEmpty then
         ["Keybinding for \x27" ++ action ++ "\x27 should be a non-empty string"]
       else []
     | _ => ["Keybinding for \x27" ++ action ++ "\x27 should be a non-empty string"])
    ++ validateKeybindingsGo rest

/-- `ConfigValidator._validate_keybindings`: every combo must be a
non-empty string. -/
def validateKeybindings (keybindings : Val) : List String :=
  match keybindings with
  | .dict kb => validateKeybindingsGo kb
  | _ => []

/-- `ConfigValidator._validate_scrollback`. -/
def validateScrollback (scrollback : Val) : List String :=
  if isNullV scrollback then []
  else if !pyIsInt scrollback || (pyIsInt scrollback && pyIntNum scrollback < 0) then
    ["Scrollback lines should be a non-negative integer, got: " ++ pyStrV scrollback]
  else []

/-- `ConfigValidator._validate_gpu_acceleration`. -/
def validateGpu (gpu_acceleration : Val) : List String :=
  if isNullV gpu_acceleration then []
  else if !pyIsBool gpu_acceleration then
    ["GPU acceleration should be true/false, got: " ++ pyStrV gpu_acceleration]
  else []

/-- `ConfigValidator._validate_session_settings`. -/
def validateSession (session : Val) : List String :=
  match session with
  | .dict se =>
    (match lookup se "max_tabs" with
     | some max_tabs =>
       if !pyIsInt max_tabs || pyIntNum max_tabs < 1 || pyIntNum max_tabs > 50 then
         ["max_tabs should be between 1 and 50, got: " ++ pyStrV max_tabs]
       else []
     | none => [])
    ++
    (match lookup se "save_on_exit" with
     | some v =>
       if !pyIsBool v then ["save_on_exit should be true/false, got: " ++ pyStrV v] else []
     | none => [])
    ++
    (match lookup se "restore_on_start" with
     | some v =>
       if !pyIsBool v then ["restore_on_start should be true/false, got: " ++ pyStrV v] else []
     | none => [])
  | _ => []

/-- The per-element loop of `_validate_plugin_settings`. -/
def validatePluginNames : List Val → List String
  | [] => []
  | v :: rest =>
    (match v with
     | .str _ => []
     | _ => ["Plugin name should be string, got: " ++ pyStrV v])
    ++ validatePluginNames rest

/-- `ConfigValidator._validate_plugin_settings`. -/
def validatePlugins (plugins : Val) : List String :=
  match plugins with
  | .dict ps =>
    (match lookup ps "auto_load" with
     | some v =>
       if !pyIsBool v then ["auto_load should be true/false, got: " ++ pyStrV v] else []
     | none => [])
    ++
    (match lookup ps "enabled" with
     | some (Val.list vs) => validatePluginNames vs
     | some _ => ["enabled should be a list of plugin names"]
     | none => [])
    ++
    (match lookup ps "disabled" with
     | some (Val.list vs) => validatePluginNames vs
     | some _ => ["disabled should be a list of plugin names"]
     | none => [])
  | _ => []

/-- `ConfigValidator._validate_performance_settings`. -/
def validatePerformance (performance : Val) : List String :=
  match performance with
  | .dict pe =>
    (match lookup pe "max_scrollback" with
     | some v =>
       if !pyIsInt v || pyIntNum v < 100 || pyIntNum v > 1000000 then
         ["max_scrollback should be between 100 and 1000000, got: " ++ pyStrV v]
       else []
     | none => [])
    ++
    (match lookup pe "terminal_bell" with
     | some v =>
       if !pyIsBool v then ["terminal_bell should be true/false, got: " ++ pyStrV v] else []
     | none => [])
    ++
    (match lookup pe "cursor_blink" with
     | some v =>
       if !pyIsBool v then ["cursor_blink should be true/false, got: " ++ pyStrV v] else []
     | none => [])
    ++
    (match lookup pe "cursor_shape" with
     | some v =>
       let isAllowed :=
         match v with
         | .str s => s = "block" || s = "ibeam" || s = "underline"
         | _ => false
       if !isAllowed then
         ["cursor_shape should be one of " ++
            pyStrV (Val.list [Val.str "block", Val.str "ibeam", Val.str "underline"]) ++
            ", got: " ++ pyStrV v]
       else []
     | none => [])
  | _ => []

/-- `ConfigValidator.validate`: merge the user config into a fresh copy
of the defaults, then run the field validators (which only collect
warnings) over the merged document.  Returns the merged document and the
warnings, in the validators' source order. -/
def validate (config : Entries) : Entries × List String :=
  let validated := mergeConfig defaultConfig config
  (validated,
    validateTheme ((lookup validated "theme").getD (Val.dict .nil))
    ++ validateFont ((lookup validated "font").getD (Val.dict .nil))
    ++ validateKeybindings ((lookup validated "keybindings").getD (Val.dict .nil))
    ++ validateScrollback ((lookup validated "scrollback_lines").getD Val.null)
    ++ validateGpu ((lookup validated "gpu_acceleration").getD Val.null)
    ++ validateSession ((lookup validated "session").getD (Val.dict .nil))
    ++ validatePlugins ((lookup validated "plugins").getD (Val.dict .nil))
    ++ validatePerformance ((lookup validated "performance").getD (Val.dict .nil)))

end Cv

/-! ## Generic association-list helpers

Python dicts whose values are not configuration values (keybinding and
plugin tables) are modelled as insertion-ordered association lists over
an arbitrary value type. -/

/-- `d.get(key)` on an insertion-ordered dict. -/
def alookup {α : Type} : List (String × α) → String → Option α
  | [], _ => none
  | (k, v) :: rest, key => if k = key then some v else alookup rest key

/-- `d[key] = value`: replace in place, or append when absent. -/
def aset {α : Type} : List (String × α) → String → α → List (String × α)
  | [], key, v => [(key, v)]
  | (k, v') :: rest, key, v =>
    if k = key then (k, v) :: rest else (k, v') :: aset rest key v

/-- `del d[key]` (no-op when the key is absent). -/
def aerase {α : Type} : List (String × α) → String → List (String × α)
  | [], _ => []
  | (k, v) :: rest, key => if k = key then rest else (k, v) :: aerase rest key

/-- `key in d`. -/
def acontains {α : Type} (d : List (String × α)) (key : String) : Bool :=
  (alookup d key).isSome

/-! ## `KeyBindingManager` (`src/keybinding_manager.py`)

`Gtk.accelerator_parse` is an external GTK call, so every operation is
parameterised by the parse function `parse : String → Nat × Nat`
returning the `(keyval, modifier)` pair; GTK returns `(0, 0)` for an
unparseable combo and `KeyBinding.is_valid` tests `keyval != 0`.
Callbacks are opaque to the manager and carried as numeric ids. -/

namespace Kb

/-- The `KeyBinding` class: combo text, action, callback, description,
category, and the parsed accelerator. -/
structure KeyBinding where
  key_combo : String
  action : String
  callback : Nat
  description : String
  category : String
  accelerator : Nat × Nat
deriving DecidableEq

/-- `KeyBinding.__init__`: stores the fields and parses the combo. -/
def mkKeyBinding (parse : String → Nat × Nat) (key_combo action : String)
    (callback : Nat) (description category : String) : KeyBinding :=
  { key_combo := key_combo, action := action, callback := callback,
    description := description, category := category,
    accelerator := parse key_combo }

/-- `KeyBinding.is_valid`: the parsed keyval is nonzero. -/
def isValid (b : KeyBinding) : Bool :=
  !(b.accelerator.1 = 0)

/-- The mutable state of a `KeyBindingManager`: bindings by action,
category membership lists, and the recorded conflicts. -/
structure KBState where
  bindings : List (String × KeyBinding)
  categories : List (String × List String)
  conflicts : List (String × String)
deriving DecidableEq

/-- A fresh manager (before default registration). -/
def emptyKB : KBState :=
  { bindings := [], categories := [], conflicts := [] }

/-- The conflict scan of `register_binding`: the first already-registered
action (in insertion order) with the same accelerator and a different
action name. -/
def findConflict : List (String × KeyBinding) → Nat × Nat → String → Option String
  | [], _, _ => none
  | (existing_action, existing_binding) :: rest, accel, action =>
    if existing_binding.accelerator = accel ∧ ¬existing_action = action then
      some existing_action
    else findConflict rest accel action

/-- `KeyBindingManager.register_binding`: builds the binding, rejects
invalid combos, rejects (and records) conflicts with a different
action's accelerator, otherwise stores the binding and adds the action
to its category's ordered list. -/
def register_binding (parse : String → Nat × Nat) (st : KBState)
    (action key_combo : String) (callback : Nat)
    (description category : String) : Bool × KBState :=
  let binding := mkKeyBinding parse key_combo action callback description category
  if !isValid binding then (false, st)
  else
    match findConflict st.bindings binding.accelerator action with
    | some existing_action =>
      (false, { st with conflicts := st.conflicts ++ [(action, existing_action)] })
    | none =>
      let cats0 :=
        if !acontains st.categories category then aset st.categories category []
        else st.categories
      let members := (alookup cats0 category).getD []
      let cats :=
        if !members.contains action then aset cats0 category (members ++ [action])
        else cats0
      (true, { st with bindings := aset st.bindings action binding, categories := cats })

/-- `KeyBindingManager._get_default_bindings`, transcribed verbatim:
category, then (action, combo, description) in source order. -/
def default_bindings : List (String × List (String × String × String)) := [
  ("terminal", [
    ("copy", "<Ctrl><Shift>C", "Copy selected text"),
    ("paste", "<Ctrl><Shift>V", "Paste from clipboard"),
    ("new_tab", "<Ctrl><Shift>T", "Open new tab"),
    ("close_tab", "<Ctrl><Shift>W", "Close current tab"),
    ("next_tab", "<Ctrl>Page_Down", "Next tab"),
    ("prev_tab", "<Ctrl>Page_Up", "Previous tab"),
    ("split_horizontal", "<Ctrl><Shift>H", "Split horizontally"),
    ("split_vertical", "<Ctrl><Shift>V", "Split vertically"),
    ("close_pane", "<Ctrl><Shift>Q", "Close current pane"),
    ("zoom_in", "<Ctrl>plus", "Increase font size"),
    ("zoom_out", "<Ctrl>minus", "Decrease font size"),
    ("reset_zoom", "<Ctrl>0", "Reset font size"),
    ("find", "<Ctrl><Shift>F", "Find in terminal"),
    ("command_palette", "<Ctrl><Shift>P", "Command palette"),
    ("preferences", "<Ctrl>comma", "Open preferences"),
    ("toggle_fullscreen", "F11", "Toggle fullscreen"),
    ("new_window", "<Ctrl><Shift>N", "New window"),
    ("quit", "<Ctrl><Shift>Q", "Quit application")]),
  ("navigation", [
    ("scroll_up", "<Ctrl><Shift>Up", "Scroll up one page"),
    ("scroll_down", "<Ctrl><Shift>Down", "Scroll down one page"),
    ("scroll_to_top", "<Ctrl>Home", "Scroll to top"),
    ("scroll_to_bottom", "<Ctrl>End", "Scroll to bottom"),
    ("page_up", "Page_Up", "Page up"),
    ("page_down", "Page_Down", "Page down")]),
  ("selection", [
    ("select_all", "<Ctrl><Shift>A", "Select all"),
    ("select_word", "<Ctrl><Shift>W", "Select word"),
    ("select_line", "<Ctrl><Shift>L", "Select line"),
    ("clear_selection", "Escape", "Clear selection")])]

/-- The inner loop of `reset_to_defaults`: registers each default action
of one category (with the placeholder callback `0`, the embedding of
`lambda: None`). -/
def registerDefaultsCat (parse : String → Nat × Nat) (st : KBState)
    (category : String) : List (String × String × String) → KBState
  | [] => st
  | (action, key, description) :: rest =>
    registerDefaultsCat parse
      (register_binding parse st action key 0 description category).2 category rest

/-- The outer loop of `reset_to_defaults` over the categories. -/
def registerDefaults (parse : String → Nat × Nat) (st : KBState) :
    List (String × List (String × String × String)) → KBState
  | [] => st
  | (category, actions) :: rest =>
    registerDefaults parse (registerDefaultsCat parse st category actions) rest

/-- `KeyBindingManager.reset_to_defaults`: clears bindings, categories
and conflicts, then registers every default binding through
`register_binding`. -/
def reset_to_defaults (parse : String → Nat × Nat) (_st : KBState) : KBState :=
  registerDefaults parse emptyKB default_bindings

/-- `KeyBindingManager.export_bindings`: the action → combo-text map of
the current bindings. -/
def export_bindings (st : KBState) : List (String × String) :=
  st.bindings.map (fun ab => (ab.1, ab.2.key_combo))

/-- `KeyBindingManager.get_conflicts` (returns a copy). -/
def get_conflicts (st : KBState) : List (String × String) :=
  st.conflicts

/-- The action → combo map baked into the defaults table, flattened in
table order; what the round-trip claim compares `export_bindings`
against. -/
def defaultComboMap : List (String × String) :=
  default_bindings.foldl
    (fun acc cat => acc ++ cat.2.map (fun akd => (akd.1, akd.2.1))) []

/-- Modelled from the spec: `Gtk.accelerator_parse` itself lives in GTK,
outside this repository.  The spec only relies on it being a pure
function into a comparable accelerator representation that fails on the
empty/invalid combo; this model encodes the combo text injectively into
the keyval and parses every nonempty combo successfully. -/
def modelAccelParse (combo : String) : Nat × Nat :=
  (combo.data.foldl (fun a c => a * 1114112 + (c.toNat + 1)) 0, 0)

end Kb

/-! ## `PluginManager` (`src/plugin_manager.py`)

Module resolution (`_load_legacy_plugin` / `_load_modern_plugin`) and
the per-plugin config file read are filesystem/import effects; the
result of resolving and instantiating the plugin class is passed to
`load_plugin` as an `Option Plugin` argument.  A `Plugin` records the
observables the manager uses: declared name and version, declared
dependencies, the mutable `enabled` flag, whether its `on_load` /
`on_unload` hooks raise, and its event-hook methods.  Hook methods are
modelled as raise-or-return; logger calls are recorded as structured
log entries. -/

namespace Pm

/-- A bound method carrying a `_plugin_hooks` list: its identity, its
`__self__` (none for a plain function), the events it is hooked to, and
whether calling it raises. -/
structure HookMethod where
  mid : Nat
  owner : Option Nat
  events : List String
  raises : Bool
deriving DecidableEq

/-- A live plugin instance (see section comment). -/
structure Plugin where
  oid : Nat
  name : String
  version : String
  dependencies : List String
  enabled : Bool
  onLoadRaises : Bool
  onUnloadRaises : Bool
  hookMethods : List HookMethod
deriving DecidableEq

/-- One record per `self.logger.*` call site in the source. -/
inductive PMLog : Type where
  | unmetDeps : String → PMLog
  | errorLoading : String → PMLog
  | errorOnLoad : PMLog
  | loadedPlugin : String → String → PMLog
  | errorUnloading : String → PMLog
  | unloadedPlugin : String → PMLog
  | errorInHook : String → PMLog
  | cannotEnable : String → PMLog
  | errorEnabling : String → PMLog
  | enabledPlugin : String → PMLog
  | disabledPlugin : String → PMLog
deriving DecidableEq

/-- The mutable state of a `PluginManager`: the enabled and disabled
instance maps, the event-hook table, and the log. -/
structure PMState where
  enabled_plugins : List (String × Plugin)
  disabled_plugins : List (String × Plugin)
  event_hooks : List (String × List HookMethod)
  log : List PMLog
deriving DecidableEq

/-- Appends one log record. -/
def addLog (st : PMState) (entry : PMLog) : PMState :=
  { st with log := st.log ++ [entry] }

/-- `PluginManager._check_dependencies`: every declared dependency name
must match the declared name of some currently enabled instance. -/
def check_dependencies (st : PMState) (plugin : Plugin) : Bool :=
  plugin.dependencies.all
    (fun dep => st.enabled_plugins.any (fun ep => ep.2.name = dep))

/-- One step of `_register_event_hooks`: `setdefault`-append of a hook
method under one event name. -/
def addHook (eh : List (String × List HookMethod)) (event_type : String)
    (m : HookMethod) : List (String × List HookMethod) :=
  match alookup eh event_type with
  | none => eh ++ [(event_type, [m])]
  | some hooks => aset eh event_type (hooks ++ [m])

/-- `PluginManager._register_event_hooks`: every hook method of the
plugin is appended under each event name in its `_plugin_hooks`. -/
def register_event_hooks (st : PMState) (plugin : Plugin) : PMState :=
  { st with
    event_hooks :=
      plugin.hookMethods.foldl
        (fun eh m => m.events.foldl (fun eh2 ev => addHook eh2 ev m) eh)
        st.event_hooks }

/-- `PluginManager.load_plugin`.  `resolved` is the outcome of resolving
and instantiating the plugin class (`none` when resolution or the
constructor fails, which the outer `except` turns into a logged `None`).
An id already tracked returns the existing instance unchanged; unmet
dependencies store the instance disabled and return `None`; otherwise
`on_load` runs (exceptions logged), the event hooks are registered, and
the instance is stored enabled or disabled according to
`is_enabled()`. -/
def load_plugin (st : PMState) (plugin_id : String) (resolved : Option Plugin) :
    Option Plugin × PMState :=
  if acontains st.enabled_plugins plugin_id || acontains st.disabled_plugins plugin_id then
    ((alookup st.enabled_plugins plugin_id).orElse
      (fun _ => alookup st.disabled_plugins plugin_id), st)
  else
    match resolved with
    | none => (none, addLog st (.errorLoading plugin_id))
    | some plugin =>
      if !check_dependencies st plugin then
        (none,
          { addLog st (.unmetDeps plugin.name) with
            disabled_plugins := aset st.disabled_plugins plugin_id plugin })
      else
        let st1 := if plugin.onLoadRaises then addLog st .errorOnLoad else st
        let st2 := register_event_hooks st1 plugin
        if plugin.enabled then
          (some plugin,
            { addLog st2 (.loadedPlugin plugin.name plugin.version) with
              enabled_plugins := aset st2.enabled_plugins plugin_id plugin })
        else
          (some plugin,
            { st2 with disabled_plugins := aset st2.disabled_plugins plugin_id plugin })

/-- `PluginManager.unload_plugin`: looks the id up among enabled then
disabled instances; absent ids return `False`.  The `try` block wraps
the `on_unload` call and the removals, so a raising `on_unload` is
logged and returns `False` with nothing removed; otherwise the instance
is dropped from both maps and every event hook whose `__self__` is this
instance is stripped. -/
def unload_plugin (st : PMState) (plugin_id : String) : Bool × PMState :=
  match (alookup st.enabled_plugins plugin_id).orElse
      (fun _ => alookup st.disabled_plugins plugin_id) with
  | none => (false, st)
  | some plugin =>
    if plugin.onUnloadRaises then (false, addLog st (.errorUnloading plugin_id))
    else
      (true,
        { addLog st (.unloadedPlugin plugin.name) with
          enabled_plugins := aerase st.enabled_plugins plugin_id,
          disabled_plugins := aerase st.disabled_plugins plugin_id,
          event_hooks :=
            st.event_hooks.map (fun eh =>
              (eh.1, eh.2.filter
                (fun h => h.owner.isNone || !(h.owner = some plugin.oid)))) })

/-- The dispatch loop of `emit_event`: each hook is called in order; a
raising hook adds a log record and the loop continues.  Returns the
invocation trace (method id, raised?) and the log records. -/
def emitLoop (event_type : String) : List HookMethod → List (Nat × Bool) →
    List PMLog → List (Nat × Bool) × List PMLog
  | [], trace, logs => (trace, logs)
  | h :: rest, trace, logs =>
    if h.raises then
      emitLoop event_type rest (trace ++ [(h.mid, true)]) (logs ++ [.errorInHook event_type])
    else
      emitLoop event_type rest (trace ++ [(h.mid, false)]) logs

/-- `PluginManager.emit_event`: a no-op for an unregistered event name;
otherwise dispatches to every registered hook in registration order. -/
def emit_event (st : PMState) (event_type : String) :
    List (Nat × Bool) × PMState :=
  match alookup st.event_hooks event_type with
  | none => ([], st)
  | some hooks =>
    match emitLoop event_type hooks [] [] with
    | (trace, logs) => (trace, { st with log := st.log ++ logs })

/-- `PluginManager.get_enabled_plugins` (returns a copy). -/
def get_enabled_plugins (st : PMState) : List (String × Plugin) :=
  st.enabled_plugins

/-- `PluginManager.get_disabled_plugins` (returns a copy). -/
def get_disabled_plugins (st : PMState) : List (String × Plugin) :=
  st.disabled_plugins

/-- `PluginManager.enable_plugin`: only disabled ids can be enabled;
dependencies are re-checked first.  The instance is moved into the
enabled map *before* `on_load` runs, so a raising `on_load` is logged
and returns `False` while the instance stays in the enabled map. -/
def enable_plugin (st : PMState) (plugin_id : String) : Bool × PMState :=
  match alookup st.disabled_plugins plugin_id with
  | none => (false, st)
  | some plugin =>
    if !check_dependencies st plugin then (false, addLog st (.cannotEnable plugin_id))
    else
      let p := { plugin with enabled := true }
      let st1 :=
        { st with
          enabled_plugins := aset st.enabled_plugins plugin_id p,
          disabled_plugins := aerase st.disabled_plugins plugin_id }
      if p.onLoadRaises then (false, addLog st1 (.errorEnabling plugin_id))
      else (true, addLog st1 (.enabledPlugin p.name))

/-- `PluginManager.disable_plugin`: clears the instance's enabled flag
and moves it to the disabled map; the event-hook table is untouched. -/
def disable_plugin (st : PMState) (plugin_id : String) : Bool × PMState :=
  match alookup st.enabled_plugins plugin_id with
  | none => (false, st)
  | some plugin =>
    let p := { plugin with enabled := false }
    (true,
      { addLog st (.disabledPlugin p.name) with
        disabled_plugins := aset st.disabled_plugins plugin_id p,
        enabled_plugins := aerase st.enabled_plugins plugin_id })

end Pm

/-! ## Concrete documents used to evaluate the validator claims -/

/-- A partial document in which the checked field of every section fails
its bounds/type check. -/
def sampleBadConfig : Entries := entries [
  ("theme", Val.dict (entries [
    ("background_color", Val.str "red"),
    ("palette", Val.list [Val.str "#000000", Val.int 7])])),
  ("font", Val.dict (entries [
    ("size", Val.int 0),
    ("family", Val.str " ")])),
  ("keybindings", Val.dict (entries [("copy", Val.int 3)])),
  ("scrollback_lines", Val.int (-5)),
  ("gpu_acceleration", Val.str "yes"),
  ("session", Val.dict (entries [
    ("max_tabs", Val.int 99),
    ("save_on_exit", Val.int 1),
    ("restore_on_start", Val.str "y")])),
  ("plugins", Val.dict (entries [
    ("auto_load", Val.int 2),
    ("enabled", Val.list [Val.int 9]),
    ("disabled", Val.list [Val.int 4])])),
  ("performance", Val.dict (entries [
    ("max_scrollback", Val.int 5),
    ("terminal_bell", Val.int 0),
    ("cursor_blink", Val.str "no"),
    ("cursor_shape", Val.str "beam")]))]

/-- A partial document giving the plugin list fields non-list values. -/
def sampleBadPlugins : Entries := entries [
  ("plugins", Val.dict (entries [
    ("enabled", Val.str "x"),
    ("disabled", Val.int 0)]))]

/-! ## Association-list lemmas -/

theorem alookup_aset_self {α : Type} (d : List (String × α)) (key : String) (v : α) :
    alookup (aset d key v) key = some v := by
  induction d with
  | nil => simp [aset, alookup]
  | cons kv rest ih =>
    by_cases h : kv.1 = key
    · simp [aset, alookup, h]
    · simp [aset, alookup, h, ih]

theorem alookup_aset_other {α : Type} (d : List (String × α)) (key key' : String) (v : α)
    (h : ¬ key = key') : alookup (aset d key v) key' = alookup d key' := by
  induction d with
  | nil => simp [aset, alookup, h]
  | cons kv rest ih =>
    by_cases hk : kv.1 = key
    · simp [aset, alookup, hk, h]
    · simp [aset, alookup, hk, ih]

theorem alookup_mem {α : Type} (d : List (String × α)) (key : String) (v : α)
    (h : alookup d key = some v) : (key, v) ∈ d := by
  induction d with
  | nil => simp [alookup] at h
  | cons kv rest ih =>
    by_cases hk : kv.1 = key
    · obtain ⟨a, b⟩ := kv
      simp only at hk
      subst hk
      simp [alookup] at h
      subst h
      exact List.mem_cons_self _ _
    · simp [alookup, hk] at h
      exact List.mem_cons_of_mem _ (ih h)

theorem alookup_eq_none_of_not_mem {α : Type} (d : List (String × α)) (key : String)
    (h : key ∉ d.map Prod.fst) : alookup d key = none := by
  induction d with
  | nil => simp [alookup]
  | cons kv rest ih =>
    simp only [List.map_cons, List.mem_cons, not_or] at h
    have hne : ¬ kv.1 = key := fun he => h.1 he.symm
    simp [alookup, hne, ih h.2]

theorem alookup_aerase_self {α : Type} (d : List (String × α)) (key : String)
    (hnodup : (d.map Prod.fst).Nodup) : alookup (aerase d key) key = none := by
  induction d with
  | nil => simp [aerase, alookup]
  | cons kv rest ih =>
    simp only [List.map_cons, List.nodup_cons] at hnodup
    by_cases hk : kv.1 = key
    · subst hk
      simp only [aerase, if_pos rfl]
      exact alookup_eq_none_of_not_mem _ _ hnodup.1
    · simp only [aerase, if_neg hk, alookup, if_neg hk]
      exact ih hnodup.2

/-! ## Claims about `PluginManager` -/

/-- C6: loading a fresh descriptor whose instance declares a dependency
name matched by no currently enabled instance returns `none`, stores the
instance in the disabled map (only), leaves the enabled map and the
event-hook table untouched, and the instance is retrievable via the
disabled-set query but not the enabled-set query. -/
theorem load_plugin_unmet_dependency (st : Pm.PMState) (pid : String)
    (plugin : Pm.Plugin) (dep : String)
    (hen : alookup st.enabled_plugins pid = none)
    (hdis : alookup st.disabled_plugins pid = none)
    (hdep : dep ∈ plugin.dependencies)
    (hnone : ∀ p ∈ st.enabled_plugins, ¬ p.2.name = dep) :
    Pm.load_plugin st pid (some plugin)
      = (none,
          { st with
            disabled_plugins := aset st.disabled_plugins pid plugin,
            log := st.log ++ [.unmetDeps plugin.name] })
    ∧ alookup (Pm.get_disabled_plugins (Pm.load_plugin st pid (some plugin)).2) pid
        = some plugin
    ∧ alookup (Pm.get_enabled_plugins (Pm.load_plugin st pid (some plugin)).2) pid
        = none := by
  have hchk : Pm.check_dependencies st plugin = false := by
    unfold Pm.check_dependencies
    rw [List.all_eq_false]
    refine ⟨dep, hdep, ?_⟩
    simp only [Bool.not_eq_true, List.any_eq_false]
    intro p hp
    simpa using hnone p hp
  have hmain : Pm.load_plugin st pid (some plugin)
      = (none,
          { st with
            disabled_plugins := aset st.disabled_plugins pid plugin,
            log := st.log ++ [.unmetDeps plugin.name] }) := by
    unfold Pm.load_plugin
    simp [acontains, hen, hdis, hchk, Pm.addLog]
  refine ⟨hmain, ?_, ?_⟩
  · rw [hmain]
    exact alookup_aset_self _ _ _
  · rw [hmain]
    exact hen

/-- C7: `emit_event` on an unregistered event name is a no-op; on a
registered name it invokes every hook, one at a time, in registration
order (raising hooks included, each producing one hook-error log record),
and the only state change is the appended log. -/
theorem emit_event_dispatch (st : Pm.PMState) (ev : String) :
    (alookup st.event_hooks ev = none → Pm.emit_event st ev = ([], st))
    ∧ (∀ hooks, alookup st.event_hooks ev = some hooks →
        Pm.emit_event st ev
          = (hooks.map (fun h => (h.mid, h.raises)),
             { st with
               log := st.log ++
                 (hooks.filter (fun h => h.raises)).map
                   (fun _ => Pm.PMLog.errorInHook ev) })) := by
  have hloop : ∀ (hooks : List Pm.HookMethod) (tr : List (Nat × Bool)) (logs : List Pm.PMLog),
      Pm.emitLoop ev hooks tr logs
        = (tr ++ hooks.map (fun h => (h.mid, h.raises)),
           logs ++ (hooks.filter (fun h => h.raises)).map
             (fun _ => Pm.PMLog.errorInHook ev)) := by
    intro hooks
    induction hooks with
    | nil => intro tr logs; simp [Pm.emitLoop]
    | cons h rest ih =>
      intro tr logs
      by_cases hr : h.raises
      · simp [Pm.emitLoop, hr, ih]
      · simp [Pm.emitLoop, hr, ih]
  constructor
  · intro hnone
    unfold Pm.emit_event
    simp [hnone]
  · intro hooks hsome
    unfold Pm.emit_event
    simp [hsome, hloop]

/-- C8, counterexample: a tracked plugin whose `on_unload` raises makes
`unload_plugin` return `false`, contradicting the claim that the result
is `true` exactly when the id is tracked (and nothing is removed). -/
theorem unload_plugin_claim_false :
    (Pm.unload_plugin
      { enabled_plugins := [("p",
          { oid := 1, name := "demo", version := "1.0.0", dependencies := [],
            enabled := true, onLoadRaises := false, onUnloadRaises := true,
            hookMethods := [] })],
        disabled_plugins := [], event_hooks := [], log := [] } "p").1 = false
    ∧ acontains
        (Pm.PMState.enabled_plugins
          { enabled_plugins := [("p",
              { oid := 1, name := "demo", version := "1.0.0", dependencies := [],
                enabled := true, onLoadRaises := false, onUnloadRaises := true,
                hookMethods := [] })],
            disabled_plugins := [], event_hooks := [], log := [] }) "p" = true := by
  constructor
  · rfl
  · rfl

/-- C8, amended: `unload_plugin` returns `true` exactly when the id is
tracked and the instance's `on_unload` hook does not raise.  A raising
hook is caught and logged, but the call then returns `false` with the
instance and all of its event hooks still registered; only in the
non-raising case is the instance removed from both maps and every hook
whose `__self__` is the instance stripped. -/
theorem unload_plugin_cases (st : Pm.PMState) (pid : String) :
    ((alookup st.enabled_plugins pid).orElse
        (fun _ => alookup st.disabled_plugins pid) = none →
      Pm.unload_plugin st pid = (false, st))
    ∧ (∀ plugin,
        (alookup st.enabled_plugins pid).orElse
            (fun _ => alookup st.disabled_plugins pid) = some plugin →
        plugin.onUnloadRaises = true →
        Pm.unload_plugin st pid
          = (false, Pm.addLog st (.errorUnloading pid)))
    ∧ (∀ plugin,
        (alookup st.enabled_plugins pid).orElse
            (fun _ => alookup st.disabled_plugins pid) = some plugin →
        plugin.onUnloadRaises = false →
        Pm.unload_plugin st pid
          = (true,
              { Pm.addLog st (.unloadedPlugin plugin.name) with
                enabled_plugins := aerase st.enabled_plugins pid,
                disabled_plugins := aerase st.disabled_plugins pid,
                event_hooks :=
                  st.event_hooks.map (fun eh =>
                    (eh.1, eh.2.filter
                      (fun h => h.owner.isNone || !(h.owner = some plugin.oid)))) })) := by
  refine ⟨?_, ?_, ?_⟩
  · intro hnone
    unfold Pm.unload_plugin
    simp [hnone]
  · intro plugin hsome hraises
    unfold Pm.unload_plugin
    simp [hsome, hraises]
  · intro plugin hsome hraises
    unfold Pm.unload_plugin
    simp [hsome, hraises]

/-- C9, counterexample: a disabled plugin with met dependencies whose
`on_load` raises makes `enable_plugin` return `false`, yet the plugin
has left the disabled set and sits in the enabled set — contradicting
the claim that it stays disabled. -/
theorem enable_plugin_claim_false :
    (Pm.enable_plugin
      { enabled_plugins := [],
        disabled_plugins := [("q",
          { oid := 2, name := "flaky", version := "0.1", dependencies := [],
            enabled := false, onLoadRaises := true, onUnloadRaises := false,
            hookMethods := [] })],
        event_hooks := [], log := [] } "q").1 = false
    ∧ alookup (Pm.enable_plugin
      { enabled_plugins := [],
        disabled_plugins := [("q",
          { oid := 2, name := "flaky", version := "0.1", dependencies := [],
            enabled := false, onLoadRaises := true, onUnloadRaises := false,
            hookMethods := [] })],
        event_hooks := [], log := [] } "q").2.disabled_plugins "q" = none
    ∧ (alookup (Pm.enable_plugin
      { enabled_plugins := [],
        disabled_plugins := [("q",
          { oid := 2, name := "flaky", version := "0.1", dependencies := [],
            enabled := false, onLoadRaises := true, onUnloadRaises := false,
            hookMethods := [] })],
        event_hooks := [], log := [] } "q").2.enabled_plugins "q").isSome = true := by
  refine ⟨rfl, rfl, rfl⟩

/-- C9, amended: when `enable_plugin` finds the plugin in the disabled
set with its dependencies met and the plugin's `on_load` hook raises,
the exception is caught and logged and enable returns `false`, but the
plugin has already been moved out of the disabled set into the enabled
set with its enabled flag set. -/
theorem enable_plugin_onload_raises (st : Pm.PMState) (pid : String)
    (plugin : Pm.Plugin)
    (hdis : alookup st.disabled_plugins pid = some plugin)
    (hnodup : (st.disabled_plugins.map Prod.fst).Nodup)
    (hdeps : Pm.check_dependencies st plugin = true)
    (hraises : plugin.onLoadRaises = true) :
    Pm.enable_plugin st pid
      = (false,
          Pm.addLog
            { st with
              enabled_plugins :=
                aset st.enabled_plugins pid { plugin with enabled := true },
              disabled_plugins := aerase st.disabled_plugins pid }
            (.errorEnabling pid))
    ∧ alookup (Pm.enable_plugin st pid).2.enabled_plugins pid
        = some { plugin with enabled := true }
    ∧ alookup (Pm.enable_plugin st pid).2.disabled_plugins pid = none := by
  have hmain : Pm.enable_plugin st pid
      = (false,
          Pm.addLog
            { st with
              enabled_plugins :=
                aset st.enabled_plugins pid { plugin with enabled := true },
              disabled_plugins := aerase st.disabled_plugins pid }
            (.errorEnabling pid)) := by
    unfold Pm.enable_plugin
    simp [hdis, hdeps, hraises]
  refine ⟨hmain, ?_, ?_⟩
  · rw [hmain]
    exact alookup_aset_self _ _ _
  · rw [hmain]
    exact alookup_aerase_self _ _ hnodup

/-- C10: disabling an enabled plugin touches only the enabled/disabled
maps, the instance's enabled flag and the log; the event-hook table is
unchanged, so a subsequent `emit_event` on any event name produces the
same invocation trace as before — the now-disabled plugin's handlers
are still invoked. -/
theorem disable_plugin_keeps_hooks (st : Pm.PMState) (pid : String)
    (plugin : Pm.Plugin)
    (h : alookup st.enabled_plugins pid = some plugin) :
    Pm.disable_plugin st pid
      = (true,
          { Pm.addLog st (.disabledPlugin plugin.name) with
            disabled_plugins :=
              aset st.disabled_plugins pid { plugin with enabled := false },
            enabled_plugins := aerase st.enabled_plugins pid })
    ∧ (Pm.disable_plugin st pid).2.event_hooks = st.event_hooks
    ∧ ∀ ev, (Pm.emit_event (Pm.disable_plugin st pid).2 ev).1
        = (Pm.emit_event st ev).1 := by
  have hmain : Pm.disable_plugin st pid
      = (true,
          { Pm.addLog st (.disabledPlugin plugin.name) with
            disabled_plugins :=
              aset st.disabled_plugins pid { plugin with enabled := false },
            enabled_plugins := aerase st.enabled_plugins pid }) := by
    unfold Pm.disable_plugin
    simp [h]
  refine ⟨hmain, by rw [hmain]; simp [Pm.addLog], ?_⟩
  intro ev
  rw [hmain]
  unfold Pm.emit_event
  simp only [Pm.addLog]
  cases halookup : alookup st.event_hooks ev with
  | none => simp
  | some hooks => simp

/-! ### Witnesses for the `PluginManager` claims -/

/-- Witness for C6 at a concrete registry: an enabled plugin named
`"other"` cannot satisfy a declared dependency on `"missing"`. -/
theorem load_plugin_unmet_dependency_witness :
    Pm.load_plugin
      { enabled_plugins := [("e",
          { oid := 5, name := "other", version := "1.0", dependencies := [],
            enabled := true, onLoadRaises := false, onUnloadRaises := false,
            hookMethods := [] })],
        disabled_plugins := [], event_hooks := [], log := [] } "p"
      (some { oid := 6, name := "needy", version := "1.0",
              dependencies := ["missing"], enabled := true,
              onLoadRaises := false, onUnloadRaises := false, hookMethods := [] })
      = (none,
          { enabled_plugins := [("e",
              { oid := 5, name := "other", version := "1.0", dependencies := [],
                enabled := true, onLoadRaises := false, onUnloadRaises := false,
                hookMethods := [] })],
            disabled_plugins := [("p",
              { oid := 6, name := "needy", version := "1.0",
                dependencies := ["missing"], enabled := true,
                onLoadRaises := false, onUnloadRaises := false,
                hookMethods := [] })],
            event_hooks := [], log := [.unmetDeps "needy"] }) := by
  have h := load_plugin_unmet_dependency
    { enabled_plugins := [("e",
        { oid := 5, name := "other", version := "1.0", dependencies := [],
          enabled := true, onLoadRaises := false, onUnloadRaises := false,
          hookMethods := [] })],
      disabled_plugins := [], event_hooks := [], log := [] } "p"
    { oid := 6, name := "needy", version := "1.0", dependencies := ["missing"],
      enabled := true, onLoadRaises := false, onUnloadRaises := false,
      hookMethods := [] } "missing" rfl rfl (by decide) (by decide)
  exact h.1

/-- Witness for C7 at a concrete hook table: three handlers registered
for `"ev"`, the middle one raising; all three are invoked in order and
exactly one hook error is logged. -/
theorem emit_event_dispatch_witness :
    Pm.emit_event
      { enabled_plugins := [], disabled_plugins := [],
        event_hooks := [("ev",
          [{ mid := 1, owner := some 9, events := ["ev"], raises := false },
           { mid := 2, owner := some 9, events := ["ev"], raises := true },
           { mid := 3, owner := none, events := ["ev"], raises := false }])],
        log := [] } "ev"
      = ([(1, false), (2, true), (3, false)],
         { enabled_plugins := [], disabled_plugins := [],
           event_hooks := [("ev",
             [{ mid := 1, owner := some 9, events := ["ev"], raises := false },
              { mid := 2, owner := some 9, events := ["ev"], raises := true },
              { mid := 3, owner := none, events := ["ev"], raises := false }])],
           log := [.errorInHook "ev"] })
    ∧ Pm.emit_event
      { enabled_plugins := [], disabled_plugins := [],
        event_hooks := [("ev",
          [{ mid := 1, owner := some 9, events := ["ev"], raises := false },
           { mid := 2, owner := some 9, events := ["ev"], raises := true },
           { mid := 3, owner := none, events := ["ev"], raises := false }])],
        log := [] } "other"
      = ([], { enabled_plugins := [], disabled_plugins := [],
               event_hooks := [("ev",
                 [{ mid := 1, owner := some 9, events := ["ev"], raises := false },
                  { mid := 2, owner := some 9, events := ["ev"], raises := true },
                  { mid := 3, owner := none, events := ["ev"], raises := false }])],
               log := [] }) := by
  constructor
  · have h := (emit_event_dispatch
      { enabled_plugins := [], disabled_plugins := [],
        event_hooks := [("ev",
          [{ mid := 1, owner := some 9, events := ["ev"], raises := false },
           { mid := 2, owner := some 9, events := ["ev"], raises := true },
           { mid := 3, owner := none, events := ["ev"], raises := false }])],
        log := [] } "ev").2
      [{ mid := 1, owner := some 9, events := ["ev"], raises := false },
       { mid := 2, owner := some 9, events := ["ev"], raises := true },
       { mid := 3, owner := none, events := ["ev"], raises := false }] rfl
    simpa using h
  · have h := (emit_event_dispatch
      { enabled_plugins := [], disabled_plugins := [],
        event_hooks := [("ev",
          [{ mid := 1, owner := some 9, events := ["ev"], raises := false },
           { mid := 2, owner := some 9, events := ["ev"], raises := true },
           { mid := 3, owner := none, events := ["ev"], raises := false }])],
        log := [] } "other").1 rfl
    simpa using h

/-- Witness for C8 (amended) at concrete registries: an untracked id, a
tracked id with raising `on_unload`, and a tracked id with quiet
`on_unload` whose hooks are stripped. -/
theorem unload_plugin_cases_witness :
    Pm.unload_plugin
      { enabled_plugins := [], disabled_plugins := [], event_hooks := [],
        log := [] } "absent"
      = (false, { enabled_plugins := [], disabled_plugins := [],
                  event_hooks := [], log := [] })
    ∧ Pm.unload_plugin
      { enabled_plugins := [("p",
          { oid := 1, name := "demo", version := "1.0.0", dependencies := [],
            enabled := true, onLoadRaises := false, onUnloadRaises := true,
            hookMethods := [] })],
        disabled_plugins := [], event_hooks := [], log := [] } "p"
      = (false,
         { enabled_plugins := [("p",
             { oid := 1, name := "demo", version := "1.0.0", dependencies := [],
               enabled := true, onLoadRaises := false, onUnloadRaises := true,
               hookMethods := [] })],
           disabled_plugins := [], event_hooks := [],
           log := [.errorUnloading "p"] })
    ∧ Pm.unload_plugin
      { enabled_plugins := [("p",
          { oid := 1, name := "quiet", version := "1.0.0", dependencies := [],
            enabled := true, onLoadRaises := false, onUnloadRaises := false,
            hookMethods := [] })],
        disabled_plugins := [],
        event_hooks := [("ev",
          [{ mid := 1, owner := some 1, events := ["ev"], raises := false },
           { mid := 2, owner := some 3, events := ["ev"], raises := false }])],
        log := [] } "p"
      = (true,
         { enabled_plugins := [], disabled_plugins := [],
           event_hooks := [("ev",
             [{ mid := 2, owner := some 3, events := ["ev"], raises := false }])],
           log := [.unloadedPlugin "quiet"] }) := by
  refine ⟨?_, ?_, ?_⟩
  · exact (unload_plugin_cases
      { enabled_plugins := [], disabled_plugins := [], event_hooks := [],
        log := [] } "absent").1 rfl
  · have h := (unload_plugin_cases
      { enabled_plugins := [("p",
          { oid := 1, name := "demo", version := "1.0.0", dependencies := [],
            enabled := true, onLoadRaises := false, onUnloadRaises := true,
            hookMethods := [] })],
        disabled_plugins := [], event_hooks := [], log := [] } "p").2.1
      { oid := 1, name := "demo", version := "1.0.0", dependencies := [],
        enabled := true, onLoadRaises := false, onUnloadRaises := true,
        hookMethods := [] } rfl rfl
    simpa [Pm.addLog] using h
  · have h := (unload_plugin_cases
      { enabled_plugins := [("p",
          { oid := 1, name := "quiet", version := "1.0.0", dependencies := [],
            enabled := true, onLoadRaises := false, onUnloadRaises := false,
            hookMethods := [] })],
        disabled_plugins := [],
        event_hooks := [("ev",
          [{ mid := 1, owner := some 1, events := ["ev"], raises := false },
           { mid := 2, owner := some 3, events := ["ev"], raises := false }])],
        log := [] } "p").2.2
      { oid := 1, name := "quiet", version := "1.0.0", dependencies := [],
        enabled := true, onLoadRaises := false, onUnloadRaises := false,
        hookMethods := [] } rfl rfl
    simpa [Pm.addLog, aerase] using h

/-- Witness for C9 (amended) at a concrete registry. -/
theorem enable_plugin_onload_raises_witness :
    Pm.enable_plugin
      { enabled_plugins := [],
        disabled_plugins := [("q",
          { oid := 2, name := "flaky", version := "0.1", dependencies := [],
            enabled := false, onLoadRaises := true, onUnloadRaises := false,
            hookMethods := [] })],
        event_hooks := [], log := [] } "q"
      = (false,
         { enabled_plugins := [("q",
             { oid := 2, name := "flaky", version := "0.1", dependencies := [],
               enabled := true, onLoadRaises := true, onUnloadRaises := false,
               hookMethods := [] })],
           disabled_plugins := [], event_hooks := [],
           log := [.errorEnabling "q"] }) := by
  have h := enable_plugin_onload_raises
    { enabled_plugins := [],
      disabled_plugins := [("q",
        { oid := 2, name := "flaky", version := "0.1", dependencies := [],
          enabled := false, onLoadRaises := true, onUnloadRaises := false,
          hookMethods := [] })],
      event_hooks := [], log := [] } "q"
    { oid := 2, name := "flaky", version := "0.1", dependencies := [],
      enabled := false, onLoadRaises := true, onUnloadRaises := false,
      hookMethods := [] } rfl (by simp) rfl rfl
  simpa [Pm.addLog, aerase] using h.1

/-- Witness for C10 at a concrete registry: after disabling, emitting
`"ev"` still invokes the disabled plugin's handler. -/
theorem disable_plugin_keeps_hooks_witness :
    (Pm.disable_plugin
      { enabled_plugins := [("p",
          { oid := 1, name := "demo", version := "1.0.0", dependencies := [],
            enabled := true, onLoadRaises := false, onUnloadRaises := false,
            hookMethods := [{ mid := 7, owner := some 1, events := ["ev"],
                              raises := false }] })],
        disabled_plugins := [],
        event_hooks := [("ev",
          [{ mid := 7, owner := some 1, events := ["ev"], raises := false }])],
        log := [] } "p").1 = true
    ∧ (Pm.emit_event (Pm.disable_plugin
      { enabled_plugins := [("p",
          { oid := 1, name := "demo", version := "1.0.0", dependencies := [],
            enabled := true, onLoadRaises := false, onUnloadRaises := false,
            hookMethods := [{ mid := 7, owner := some 1, events := ["ev"],
                              raises := false }] })],
        disabled_plugins := [],
        event_hooks := [("ev",
          [{ mid := 7, owner := some 1, events := ["ev"], raises := false }])],
        log := [] } "p").2 "ev").1 = [(7, false)] := by
  have h := disable_plugin_keeps_hooks
    { enabled_plugins := [("p",
        { oid := 1, name := "demo", version := "1.0.0", dependencies := [],
          enabled := true, onLoadRaises := false, onUnloadRaises := false,
          hookMethods := [{ mid := 7, owner := some 1, events := ["ev"],
                            raises := false }] })],
      disabled_plugins := [],
      event_hooks := [("ev",
        [{ mid := 7, owner := some 1, events := ["ev"], raises := false }])],
      log := [] } "p"
    { oid := 1, name := "demo", version := "1.0.0", dependencies := [],
      enabled := true, onLoadRaises := false, onUnloadRaises := false,
      hookMethods := [{ mid := 7, owner := some 1, events := ["ev"],
                        raises := false }] } rfl
  constructor
  · rw [h.1]
  · rw [h.2.2 "ev"]
    rfl

/-! ## Claims about `KeyBindingManager` -/

theorem findConflict_eq_some (l : List (String × Kb.KeyBinding))
    (accel : Nat × Nat) (action B : String) (bB : Kb.KeyBinding)
    (hBA : ¬ B = action)
    (hB : alookup l B = some bB)
    (hacc : bB.accelerator = accel)
    (huniq : ∀ p ∈ l, p.2.accelerator = accel → p.1 = B) :
    Kb.findConflict l accel action = some B := by
  induction l with
  | nil => simp [alookup] at hB
  | cons kv rest ih =>
    by_cases hk : kv.1 = B
    · have hkv2 : kv.2 = bB := by
        have := hB
        simp only [alookup, if_pos hk] at this
        exact Option.some.inj this
      unfold Kb.findConflict
      rw [if_pos ⟨by rw [hkv2, hacc], by rw [hk]; exact hBA⟩]
      rw [hk]
    · have hno : ¬ kv.2.accelerator = accel := fun hacc' =>
        hk (huniq kv (List.mem_cons_self _ _) hacc')
      unfold Kb.findConflict
      rw [if_neg (fun hcond => hno hcond.1)]
      refine ih ?_ (fun p hp => huniq p (List.mem_cons_of_mem _ hp))
      simpa [alookup, hk] using hB

/-- C4: in a registry observing the no-duplicate-accelerator invariant,
registering a different action `A` with a combo that parses to the same
accelerator as `B`'s binding fails: the call returns `false`, the
bindings and categories (in particular `B`'s binding, and the absence of
a new binding for `A`) are untouched, and the pair `(A, B)` is appended
to the conflict list.  Stated for an arbitrary accelerator-parse
function. -/
theorem register_binding_conflict (parse : String → Nat × Nat)
    (st : Kb.KBState) (A B combo : String) (cb : Nat) (desc cat : String)
    (bB : Kb.KeyBinding)
    (hBA : ¬ B = A)
    (hB : alookup st.bindings B = some bB)
    (hacc : bB.accelerator = parse combo)
    (hvalid : ¬ (parse combo).1 = 0)
    (huniq : ∀ p ∈ st.bindings, p.2.accelerator = parse combo → p.1 = B) :
    Kb.register_binding parse st A combo cb desc cat
      = (false, { st with conflicts := st.conflicts ++ [(A, B)] })
    ∧ (Kb.register_binding parse st A combo cb desc cat).2.bindings
        = st.bindings
    ∧ alookup (Kb.register_binding parse st A combo cb desc cat).2.bindings B
        = some bB := by
  have hfc : Kb.findConflict st.bindings
      (Kb.mkKeyBinding parse combo A cb desc cat).accelerator A = some B :=
    findConflict_eq_some st.bindings (parse combo) A B bB hBA hB hacc huniq
  have hmain : Kb.register_binding parse st A combo cb desc cat
      = (false, { st with conflicts := st.conflicts ++ [(A, B)] }) := by
    unfold Kb.register_binding
    rw [if_neg (by simp [Kb.isValid, Kb.mkKeyBinding, hvalid])]
    rw [hfc]
  exact ⟨hmain, by rw [hmain], by rw [hmain]; exact hB⟩

/-- Witness for C4: with `"copy"` registered on `"<Ctrl><Shift>C"`,
registering `"paste"` on the same combo fails, leaves the bindings
alone, and records `("paste", "copy")`. -/
theorem register_binding_conflict_witness :
    Kb.register_binding Kb.modelAccelParse
      (Kb.register_binding Kb.modelAccelParse Kb.emptyKB
        "copy" "<Ctrl><Shift>C" 0 "Copy selected text" "terminal").2
      "paste" "<Ctrl><Shift>C" 0 "Paste from clipboard" "terminal"
      = (false,
          { (Kb.register_binding Kb.modelAccelParse Kb.emptyKB
              "copy" "<Ctrl><Shift>C" 0 "Copy selected text" "terminal").2 with
            conflicts := [("paste", "copy")] })
    ∧ alookup (Kb.register_binding Kb.modelAccelParse
        (Kb.register_binding Kb.modelAccelParse Kb.emptyKB
          "copy" "<Ctrl><Shift>C" 0 "Copy selected text" "terminal").2
        "paste" "<Ctrl><Shift>C" 0 "Paste from clipboard" "terminal").2.bindings
        "copy"
      = some (Kb.mkKeyBinding Kb.modelAccelParse "<Ctrl><Shift>C" "copy" 0
          "Copy selected text" "terminal") := by
  have h := register_binding_conflict Kb.modelAccelParse
    (Kb.register_binding Kb.modelAccelParse Kb.emptyKB
      "copy" "<Ctrl><Shift>C" 0 "Copy selected text" "terminal").2
    "paste" "copy" "<Ctrl><Shift>C" 0 "Paste from clipboard" "terminal"
    (Kb.mkKeyBinding Kb.modelAccelParse "<Ctrl><Shift>C" "copy" 0
      "Copy selected text" "terminal")
    (by decide) (by decide) (by decide) (by decide) (by decide)
  exact ⟨h.1, h.2.2⟩

/-- C5: evaluating `reset_to_defaults` followed by `export_bindings` on
the embedded defaults table.  Because the table itself contains
duplicate combos (`split_vertical` = `paste`, `quit` = `close_pane`,
`select_word` = `close_tab`), `register_binding` rejects the later of
each pair: the exported map is missing those three actions and three
conflicts are recorded, so the export does not equal the baked-in
action → combo map. -/
theorem reset_then_export_misses_defaults :
    Kb.export_bindings (Kb.reset_to_defaults Kb.modelAccelParse Kb.emptyKB)
      = [("copy", "<Ctrl><Shift>C"), ("paste", "<Ctrl><Shift>V"),
         ("new_tab", "<Ctrl><Shift>T"), ("close_tab", "<Ctrl><Shift>W"),
         ("next_tab", "<Ctrl>Page_Down"), ("prev_tab", "<Ctrl>Page_Up"),
         ("split_horizontal", "<Ctrl><Shift>H"), ("close_pane", "<Ctrl><Shift>Q"),
         ("zoom_in", "<Ctrl>plus"), ("zoom_out", "<Ctrl>minus"),
         ("reset_zoom", "<Ctrl>0"), ("find", "<Ctrl><Shift>F"),
         ("command_palette", "<Ctrl><Shift>P"), ("preferences", "<Ctrl>comma"),
         ("toggle_fullscreen", "F11"), ("new_window", "<Ctrl><Shift>N"),
         ("scroll_up", "<Ctrl><Shift>Up"), ("scroll_down", "<Ctrl><Shift>Down"),
         ("scroll_to_top", "<Ctrl>Home"), ("scroll_to_bottom", "<Ctrl>End"),
         ("page_up", "Page_Up"), ("page_down", "Page_Down"),
         ("select_all", "<Ctrl><Shift>A"), ("select_line", "<Ctrl><Shift>L"),
         ("clear_selection", "Escape")]
    ∧ Kb.get_conflicts (Kb.reset_to_defaults Kb.modelAccelParse Kb.emptyKB)
      = [("split_vertical", "paste"), ("quit", "close_pane"),
         ("select_word", "close_tab")]
    ∧ alookup Kb.defaultComboMap "split_vertical" = some "<Ctrl><Shift>V"
    ∧ alookup Kb.defaultComboMap "quit" = some "<Ctrl><Shift>Q"
    ∧ alookup Kb.defaultComboMap "select_word" = some "<Ctrl><Shift>W"
    ∧ ¬ Kb.export_bindings (Kb.reset_to_defaults Kb.modelAccelParse Kb.emptyKB)
        = Kb.defaultComboMap := by
  refine ⟨by decide, by decide, by decide, by decide, by decide, by decide⟩

/-! ## Claim about `ConfigParser` -/

/-- C1: evaluating the parser on a section-shaped input.  The early
branch of `_parse_content` skips every line ending in `\x7b` before the
section branch can match, so `_parse_section` is never reached: the
section header is dropped and the section's `key = value` lines are
parsed as top-level keys.  The claimed nested document
`"window" -> \x7b"width": 80\x7d` is not produced. -/
theorem parse_ignores_section_header :
    Cfg.parse "window \x7b\nwidth = 80\n\x7d"
      = (.cons "width" (Val.int 80) .nil, [])
    ∧ lookup (Cfg.parse "window \x7b\nwidth = 80\n\x7d").1 "window" = none
    ∧ Cfg.parse "window \x7b\n  # comment\n  name = \"main\"\n  visible = true\n\x7d\ntail = 7"
      = (.cons "name" (Val.str "main")
          (.cons "visible" (Val.bool true)
            (.cons "tail" (Val.int 7) .nil)), []) := by
  refine ⟨rfl, rfl, rfl⟩

/-! ## Entry-list lemmas

`Entries` is one half of a mutual inductive, so these are written as
recursive theorems (structural recursion) rather than with the
`induction` tactic. -/

theorem lookup_setKey_self : ∀ (d : Entries) (k : String) (v : Val),
    lookup (setKey d k v) k = some v
  | .nil, k, v => by simp [setKey, lookup]
  | .cons k' v' rest, k, v => by
    by_cases h : k' = k
    · simp [setKey, h, lookup]
    · simp [setKey, h, lookup, lookup_setKey_self rest k v]

theorem lookup_setKey_other : ∀ (d : Entries) (k k' : String) (v : Val),
    ¬ k = k' → lookup (setKey d k v) k' = lookup d k'
  | .nil, k, k', v, h => by simp [setKey, lookup, h]
  | .cons k0 v0 rest, k, k', v, h => by
    by_cases h0 : k0 = k
    · subst h0
      simp [setKey, lookup, h]
    · simp [setKey, h0, lookup, lookup_setKey_other rest k k' v h]

theorem lookup_appendE : ∀ (d e : Entries) (k : String),
    lookup (appendE d e) k =
      (match lookup d k with
       | some v => some v
       | none => lookup e k)
  | .nil, e, k => by simp [appendE, lookup]
  | .cons k0 v0 rest, e, k => by
    by_cases h0 : k0 = k
    · simp [appendE, lookup, h0]
    · simp [appendE, lookup, h0, lookup_appendE rest e k]

theorem lookup_none_of_not_mem_keys : ∀ (d : Entries) (k : String),
    k ∉ keysE d → lookup d k = none
  | .nil, k, _ => by simp [lookup]
  | .cons k0 v0 rest, k, h => by
    simp only [keysE, List.mem_cons, not_or] at h
    have h0 : ¬ k0 = k := fun he => h.1 he.symm
    simp [lookup, h0, lookup_none_of_not_mem_keys rest k h.2]

theorem mem_keys_of_lookup_some : ∀ (d : Entries) (k : String) (v : Val),
    lookup d k = some v → k ∈ keysE d
  | .nil, k, v, h => by simp [lookup] at h
  | .cons k0 v0 rest, k, v, h => by
    by_cases h0 : k0 = k
    · simp [keysE, h0]
    · simp only [lookup, if_neg h0] at h
      exact List.mem_cons_of_mem _ (mem_keys_of_lookup_some rest k v h)

theorem containsE_iff_mem_keys : ∀ (d : Entries) (k : String),
    containsE d k = true ↔ k ∈ keysE d
  | .nil, k => by simp [containsE, lookup, keysE]
  | .cons k0 v0 rest, k => by
    by_cases h0 : k0 = k
    · simp [containsE, lookup, keysE, h0]
    · have ih := containsE_iff_mem_keys rest k
      simp only [containsE, lookup, if_neg h0, keysE, List.mem_cons] at *
      rw [ih]
      constructor
      · exact Or.inr
      · rintro (h | h)
        · exact absurd h.symm h0
        · exact h

theorem keysE_setKey : ∀ (d : Entries) (k : String) (v : Val),
    k ∈ keysE d → keysE (setKey d k v) = keysE d
  | .nil, k, v, h => by simp [keysE] at h
  | .cons k0 v0 rest, k, v, h => by
    by_cases h0 : k0 = k
    · simp [setKey, h0, keysE]
    · have h' : k ∈ keysE rest := by
        simp only [keysE, List.mem_cons] at h
        rcases h with h | h
        · exact absurd h.symm h0
        · exact h
      simp [setKey, h0, keysE, keysE_setKey rest k v h']

theorem keysE_appendE : ∀ (d e : Entries),
    keysE (appendE d e) = keysE d ++ keysE e
  | .nil, e => by simp [appendE, keysE]
  | .cons k0 v0 rest, e => by
    simp [appendE, keysE, keysE_appendE rest e]

theorem extE : ∀ (e1 e2 : Entries), (keysE e1).Nodup → keysE e1 = keysE e2 →
    (∀ k, lookup e1 k = lookup e2 k) → e1 = e2
  | .nil, .nil, _, _, _ => rfl
  | .nil, .cons k v rest, _, hkeys, _ => by simp [keysE] at hkeys
  | .cons k v rest, .nil, _, hkeys, _ => by simp [keysE] at hkeys
  | .cons k1 v1 r1, .cons k2 v2 r2, hnodup, hkeys, hlk => by
    simp only [keysE, List.cons.injEq] at hkeys
    obtain ⟨hk, hkr⟩ := hkeys
    subst hk
    have hv : v1 = v2 := by
      have := hlk k1
      simpa [lookup] using this
    subst hv
    have hnodup' : (keysE r1).Nodup := (List.nodup_cons.mp (by simpa [keysE] using hnodup)).2
    have hk1 : k1 ∉ keysE r1 := (List.nodup_cons.mp (by simpa [keysE] using hnodup)).1
    have hr : r1 = r2 := by
      apply extE r1 r2 hnodup' hkr
      intro k
      by_cases hkk : k = k1
      · subst hkk
        rw [lookup_none_of_not_mem_keys r1 k hk1,
            lookup_none_of_not_mem_keys r2 k (hkr ▸ hk1)]
      · have hne : ¬ k1 = k := fun h => hkk h.symm
        have := hlk k
        simpa [lookup, hne] using this
    rw [hr]

/-! ## Well-formedness lemmas -/

theorem containsE_cons (k0 : String) (v0 : Val) (rest : Entries) (k : String) :
    containsE (.cons k0 v0 rest) k = (decide (k0 = k) || containsE rest k) := by
  by_cases h : k0 = k <;> simp [containsE, lookup, h]

theorem containsE_setKey_other (d : Entries) (k k' : String) (v : Val)
    (h : ¬ k = k') : containsE (setKey d k v) k' = containsE d k' := by
  simp [containsE, lookup_setKey_other d k k' v h]

theorem containsE_appendE (d e : Entries) (k : String) :
    containsE (appendE d e) k = (containsE d k || containsE e k) := by
  simp only [containsE, lookup_appendE]
  cases lookup d k <;> simp

theorem wfE_cons_iff (k : String) (v : Val) (rest : Entries) :
    wfE (.cons k v rest) = true ↔
      containsE rest k = false ∧ wfV v = true ∧ wfE rest = true := by
  simp [wfE, Bool.and_eq_true, Bool.not_eq_true', and_assoc]

theorem wfV_of_lookup : ∀ (d : Entries) (k : String) (v : Val),
    wfE d = true → lookup d k = some v → wfV v = true
  | .nil, k, v, _, h => by simp [lookup] at h
  | .cons k0 v0 rest, k, v, hd, h => by
    rw [wfE_cons_iff] at hd
    by_cases h0 : k0 = k
    · simp only [lookup, if_pos h0] at h
      exact (Option.some.inj h) ▸ hd.2.1
    · simp only [lookup, if_neg h0] at h
      exact wfV_of_lookup rest k v hd.2.2 h

theorem nodup_keys_of_wfE : ∀ (d : Entries), wfE d = true → (keysE d).Nodup
  | .nil, _ => by simp [keysE]
  | .cons k0 v0 rest, hd => by
    rw [wfE_cons_iff] at hd
    rw [keysE, List.nodup_cons]
    refine ⟨?_, nodup_keys_of_wfE rest hd.2.2⟩
    intro hmem
    rw [← containsE_iff_mem_keys] at hmem
    rw [hd.1] at hmem
    exact Bool.noConfusion hmem

theorem wfE_setKey : ∀ (d : Entries) (k : String) (v : Val),
    wfE d = true → wfV v = true → wfE (setKey d k v) = true
  | .nil, k, v, _, hv => by
    simp [setKey, wfE_cons_iff, containsE, lookup, wfE, hv]
  | .cons k0 v0 rest, k, v, hd, hv => by
    rw [wfE_cons_iff] at hd
    by_cases h0 : k0 = k
    · simp only [setKey, if_pos h0]
      exact (wfE_cons_iff _ _ _).mpr ⟨hd.1, hv, hd.2.2⟩
    · simp only [setKey, if_neg h0]
      refine (wfE_cons_iff _ _ _).mpr ⟨?_, hd.2.1, wfE_setKey rest k v hd.2.2 hv⟩
      rw [containsE_setKey_other rest k k0 v (fun he => h0 he.symm)]
      exact hd.1

theorem wfE_appendE_single : ∀ (d : Entries) (k : String) (v : Val),
    wfE d = true → containsE d k = false → wfV v = true →
    wfE (appendE d (.cons k v .nil)) = true
  | .nil, k, v, _, _, hv => by
    simp [appendE, wfE_cons_iff, containsE, lookup, wfE, hv]
  | .cons k0 v0 rest, k, v, hd, hc, hv => by
    rw [wfE_cons_iff] at hd
    rw [containsE_cons] at hc
    simp only [Bool.or_eq_false_iff, decide_eq_false_iff_not] at hc
    simp only [appendE]
    refine (wfE_cons_iff _ _ _).mpr
      ⟨?_, hd.2.1, wfE_appendE_single rest k v hd.2.2 hc.2 hv⟩
    rw [containsE_appendE, hd.1]
    have hne : ¬ k = k0 := fun he => hc.1 he.symm
    simp [containsE, lookup, hne]

/-! ## One-step unfoldings of `mergeConfig` -/

theorem mergeConfig_cons_absent (d : Entries) (k0 : String) (v : Val)
    (rest : Entries) (hd : lookup d k0 = none) :
    Cv.mergeConfig d (.cons k0 v rest)
      = Cv.mergeConfig (appendE d (.cons k0 v .nil)) rest := by
  rw [Cv.mergeConfig.eq_def]
  simp only [hd]

theorem mergeConfig_cons_dict_dict (d : Entries) (k0 : String) (ue : Entries)
    (rest : Entries) (de : Entries) (hd : lookup d k0 = some (Val.dict de)) :
    Cv.mergeConfig d (.cons k0 (Val.dict ue) rest)
      = Cv.mergeConfig
          (if isEmptyE de then setKey d k0 (Val.dict ue)
           else setKey d k0 (Val.dict (Cv.mergeConfig de ue))) rest := by
  rw [Cv.mergeConfig.eq_def]
  simp only [hd]

theorem mergeConfig_cons_nondict_dict (d : Entries) (k0 : String) (ue : Entries)
    (rest : Entries) (dv : Val) (hd : lookup d k0 = some dv)
    (hdv : ∀ de, ¬ dv = Val.dict de) :
    Cv.mergeConfig d (.cons k0 (Val.dict ue) rest)
      = Cv.mergeConfig (setKey d k0 (Val.dict ue)) rest := by
  rw [Cv.mergeConfig.eq_def]
  simp only [hd]
  cases dv with
  | dict de => exact absurd rfl (hdv de)
  | null => simp [isNullV]
  | bool b => simp [isNullV]
  | int n => simp [isNullV]
  | float f => simp [isNullV]
  | str s => simp [isNullV]
  | list xs => simp [isNullV]

theorem mergeConfig_cons_found_nondict (d : Entries) (k0 : String) (v : Val)
    (rest : Entries) (dv : Val) (hd : lookup d k0 = some dv)
    (hv : ∀ ue, ¬ v = Val.dict ue) :
    Cv.mergeConfig d (.cons k0 v rest)
      = Cv.mergeConfig (if isNullV v then d else setKey d k0 v) rest := by
  rw [Cv.mergeConfig.eq_def]
  cases v with
  | dict ue => exact absurd rfl (hv ue)
  | null => cases dv <;> simp [hd, isNullV]
  | bool b => cases dv <;> simp [hd, isNullV]
  | int n => cases dv <;> simp [hd, isNullV]
  | float f => cases dv <;> simp [hd, isNullV]
  | str s => cases dv <;> simp [hd, isNullV]
  | list xs => cases dv <;> simp [hd, isNullV]

/-- The key characterization of `_merge_config`: the merged value at any
key is the default value when the user side is absent, the user value
when the default side is absent, and `mergeVal` of the two when both are
present.  Requires the user dict's keys to be distinct (as Python dicts
guarantee). -/
theorem lookup_merge : ∀ (d u : Entries) (k : String), (keysE u).Nodup →
    lookup (Cv.mergeConfig d u) k =
      (match lookup d k, lookup u k with
       | dOpt, none => dOpt
       | none, some uv => some uv
       | some dv, some uv => some (Cv.mergeVal dv uv))
  | d, .nil, k, _ => by
    rw [Cv.mergeConfig.eq_def]
    simp [lookup]
  | d, .cons k0 v rest, k, hnodup => by
    obtain ⟨hk0, hnd⟩ := List.nodup_cons.mp (by simpa [keysE] using hnodup)
    by_cases hk : k0 = k
    · subst hk
      have hrest : lookup rest k0 = none := lookup_none_of_not_mem_keys rest k0 hk0
      have hu : lookup (Entries.cons k0 v rest) k0 = some v := by simp [lookup]
      rcases hd : lookup d k0 with _ | dv
      · rw [mergeConfig_cons_absent d k0 v rest hd,
            lookup_merge _ rest k0 hnd, hrest, hu]
        simp [lookup_appendE, hd, lookup]
      · cases v with
        | dict ue =>
          cases dv with
          | dict de =>
            cases de with
            | nil =>
              rw [mergeConfig_cons_dict_dict d k0 ue rest .nil hd,
                  if_pos (by simp [isEmptyE]), lookup_merge _ rest k0 hnd,
                  hrest, lookup_setKey_self, hu]
              simp [Cv.mergeVal, isEmptyE, hd]
            | cons a b c =>
              rw [mergeConfig_cons_dict_dict d k0 ue rest (.cons a b c) hd,
                  if_neg (by simp [isEmptyE]), lookup_merge _ rest k0 hnd,
                  hrest, lookup_setKey_self, hu]
              simp [Cv.mergeVal, isEmptyE, hd]
          | null =>
            rw [mergeConfig_cons_nondict_dict d k0 ue rest _ hd
                  (fun de h => Val.noConfusion h),
                lookup_merge _ rest k0 hnd, hrest, lookup_setKey_self, hu]
            simp [Cv.mergeVal, isNullV, hd]
          | bool b =>
            rw [mergeConfig_cons_nondict_dict d k0 ue rest _ hd
                  (fun de h => Val.noConfusion h),
                lookup_merge _ rest k0 hnd, hrest, lookup_setKey_self, hu]
            simp [Cv.mergeVal, isNullV, hd]
          | int n =>
            rw [mergeConfig_cons_nondict_dict d k0 ue rest _ hd
                  (fun de h => Val.noConfusion h),
                lookup_merge _ rest k0 hnd, hrest, lookup_setKey_self, hu]
            simp [Cv.mergeVal, isNullV, hd]
          | float f =>
            rw [mergeConfig_cons_nondict_dict d k0 ue rest _ hd
                  (fun de h => Val.noConfusion h),
                lookup_merge _ rest k0 hnd, hrest, lookup_setKey_self, hu]
            simp [Cv.mergeVal, isNullV, hd]
          | str s =>
            rw [mergeConfig_cons_nondict_dict d k0 ue rest _ hd
                  (fun de h => Val.noConfusion h),
                lookup_merge _ rest k0 hnd, hrest, lookup_setKey_self, hu]
            simp [Cv.mergeVal, isNullV, hd]
          | list xs =>
            rw [mergeConfig_cons_nondict_dict d k0 ue rest _ hd
                  (fun de h => Val.noConfusion h),
                lookup_merge _ rest k0 hnd, hrest, lookup_setKey_self, hu]
            simp [Cv.mergeVal, isNullV, hd]
        | null =>
          rw [mergeConfig_cons_found_nondict d k0 _ rest dv hd
                (fun ue h => Val.noConfusion h),
              if_pos (by simp [isNullV]), lookup_merge d rest k0 hnd,
              hrest, hu]
          cases dv <;> simp [Cv.mergeVal, isNullV, hd]
        | bool b =>
          rw [mergeConfig_cons_found_nondict d k0 _ rest dv hd
                (fun ue h => Val.noConfusion h),
              if_neg (by simp [isNullV]), lookup_merge _ rest k0 hnd,
              hrest, lookup_setKey_self, hu]
          cases dv <;> simp [Cv.mergeVal, isNullV, hd]
        | int n =>
          rw [mergeConfig_cons_found_nondict d k0 _ rest dv hd
                (fun ue h => Val.noConfusion h),
              if_neg (by simp [isNullV]), lookup_merge _ rest k0 hnd,
              hrest, lookup_setKey_self, hu]
          cases dv <;> simp [Cv.mergeVal, isNullV, hd]
        | float f =>
          rw [mergeConfig_cons_found_nondict d k0 _ rest dv hd
                (fun ue h => Val.noConfusion h),
              if_neg (by simp [isNullV]), lookup_merge _ rest k0 hnd,
              hrest, lookup_setKey_self, hu]
          cases dv <;> simp [Cv.mergeVal, isNullV, hd]
        | str s =>
          rw [mergeConfig_cons_found_nondict d k0 _ rest dv hd
                (fun ue h => Val.noConfusion h),
              if_neg (by simp [isNullV]), lookup_merge _ rest k0 hnd,
              hrest, lookup_setKey_self, hu]
          cases dv <;> simp [Cv.mergeVal, isNullV, hd]
        | list xs =>
          rw [mergeConfig_cons_found_nondict d k0 _ rest dv hd
                (fun ue h => Val.noConfusion h),
              if_neg (by simp [isNullV]), lookup_merge _ rest k0 hnd,
              hrest, lookup_setKey_self, hu]
          cases dv <;> simp [Cv.mergeVal, isNullV, hd]
    · have hu : lookup (Entries.cons k0 v rest) k = lookup rest k := by
        simp [lookup, hk]
      rcases hd : lookup d k0 with _ | dv
      · have happ : lookup (appendE d (.cons k0 v .nil)) k = lookup d k := by
          rw [lookup_appendE]
          cases lookup d k <;> simp [lookup, hk]
        rw [mergeConfig_cons_absent d k0 v rest hd,
            lookup_merge _ rest k hnd, hu, happ]
      · cases v with
        | dict ue =>
          cases dv with
          | dict de =>
            rw [mergeConfig_cons_dict_dict d k0 ue rest de hd]
            by_cases hde : isEmptyE de = true
            · rw [if_pos hde, lookup_merge _ rest k hnd,
                  lookup_setKey_other d k0 k _ hk, hu]
            · rw [if_neg hde, lookup_merge _ rest k hnd,
                  lookup_setKey_other d k0 k _ hk, hu]
          | null =>
            rw [mergeConfig_cons_nondict_dict d k0 ue rest _ hd
                  (fun de h => Val.noConfusion h),
                lookup_merge _ rest k hnd, lookup_setKey_other d k0 k _ hk, hu]
          | bool b =>
            rw [mergeConfig_cons_nondict_dict d k0 ue rest _ hd
                  (fun de h => Val.noConfusion h),
                lookup_merge _ rest k hnd, lookup_setKey_other d k0 k _ hk, hu]
          | int n =>
            rw [mergeConfig_cons_nondict_dict d k0 ue rest _ hd
                  (fun de h => Val.noConfusion h),
                lookup_merge _ rest k hnd, lookup_setKey_other d k0 k _ hk, hu]
          | float f =>
            rw [mergeConfig_cons_nondict_dict d k0 ue rest _ hd
                  (fun de h => Val.noConfusion h),
                lookup_merge _ rest k hnd, lookup_setKey_other d k0 k _ hk, hu]
          | str s =>
            rw [mergeConfig_cons_nondict_dict d k0 ue rest _ hd
                  (fun de h => Val.noConfusion h),
                lookup_merge _ rest k hnd, lookup_setKey_other d k0 k _ hk, hu]
          | list xs =>
            rw [mergeConfig_cons_nondict_dict d k0 ue rest _ hd
                  (fun de h => Val.noConfusion h),
                lookup_merge _ rest k hnd, lookup_setKey_other d k0 k _ hk, hu]
        | null =>
          rw [mergeConfig_cons_found_nondict d k0 _ rest dv hd
                (fun ue h => Val.noConfusion h),
              if_pos (by simp [isNullV]), lookup_merge d rest k hnd, hu]
        | bool b =>
          rw [mergeConfig_cons_found_nondict d k0 _ rest dv hd
                (fun ue h => Val.noConfusion h),
              if_neg (by simp [isNullV]), lookup_merge _ rest k hnd,
              lookup_setKey_other d k0 k _ hk, hu]
        | int n =>
          rw [mergeConfig_cons_found_nondict d k0 _ rest dv hd
                (fun ue h => Val.noConfusion h),
              if_neg (by simp [isNullV]), lookup_merge _ rest k hnd,
              lookup_setKey_other d k0 k _ hk, hu]
        | float f =>
          rw [mergeConfig_cons_found_nondict d k0 _ rest dv hd
                (fun ue h => Val.noConfusion h),
              if_neg (by simp [isNullV]), lookup_merge _ rest k hnd,
              lookup_setKey_other d k0 k _ hk, hu]
        | str s =>
          rw [mergeConfig_cons_found_nondict d k0 _ rest dv hd
                (fun ue h => Val.noConfusion h),
              if_neg (by simp [isNullV]), lookup_merge _ rest k hnd,
              lookup_setKey_other d k0 k _ hk, hu]
        | list xs =>
          rw [mergeConfig_cons_found_nondict d k0 _ rest dv hd
                (fun ue h => Val.noConfusion h),
              if_neg (by simp [isNullV]), lookup_merge _ rest k hnd,
              lookup_setKey_other d k0 k _ hk, hu]

theorem mergeConfig_nil (d : Entries) : Cv.mergeConfig d .nil = d := by
  rw [Cv.mergeConfig.eq_def]

theorem setKey_lookup_self : ∀ (d : Entries) (k : String) (dv : Val),
    lookup d k = some dv → setKey d k dv = d
  | .nil, k, dv, h => by simp [lookup] at h
  | .cons k0 v0 rest, k, dv, h => by
    by_cases h0 : k0 = k
    · simp only [lookup, if_pos h0] at h
      rw [setKey, if_pos h0, Option.some.inj h]
    · simp only [lookup, if_neg h0] at h
      rw [setKey, if_neg h0, setKey_lookup_self rest k dv h]

/-- Uniform found-key step of `_merge_config`: when the key is already in
the defaults, the step replaces its value by `mergeVal` of the two
sides (the `None`-keeps-default branch leaves `d` unchanged, which is
`setKey` with the value it already has). -/
theorem mergeConfig_cons_found (d : Entries) (k0 : String) (v : Val)
    (rest : Entries) (dv : Val) (hd : lookup d k0 = some dv) :
    Cv.mergeConfig d (.cons k0 v rest)
      = Cv.mergeConfig (setKey d k0 (Cv.mergeVal dv v)) rest := by
  cases v with
  | dict ue =>
    cases dv with
    | dict de =>
      rw [mergeConfig_cons_dict_dict d k0 ue rest de hd]
      by_cases hde : isEmptyE de = true
      · rw [if_pos hde]
        simp [Cv.mergeVal, hde]
      · rw [if_neg hde]
        simp [Cv.mergeVal, hde]
    | null =>
      rw [mergeConfig_cons_nondict_dict d k0 ue rest _ hd
            (fun de h => Val.noConfusion h)]
      simp [Cv.mergeVal, isNullV]
    | bool b =>
      rw [mergeConfig_cons_nondict_dict d k0 ue rest _ hd
            (fun de h => Val.noConfusion h)]
      simp [Cv.mergeVal, isNullV]
    | int n =>
      rw [mergeConfig_cons_nondict_dict d k0 ue rest _ hd
            (fun de h => Val.noConfusion h)]
      simp [Cv.mergeVal, isNullV]
    | float f =>
      rw [mergeConfig_cons_nondict_dict d k0 ue rest _ hd
            (fun de h => Val.noConfusion h)]
      simp [Cv.mergeVal, isNullV]
    | str s =>
      rw [mergeConfig_cons_nondict_dict d k0 ue rest _ hd
            (fun de h => Val.noConfusion h)]
      simp [Cv.mergeVal, isNullV]
    | list xs =>
      rw [mergeConfig_cons_nondict_dict d k0 ue rest _ hd
            (fun de h => Val.noConfusion h)]
      simp [Cv.mergeVal, isNullV]
  | null =>
    rw [mergeConfig_cons_found_nondict d k0 _ rest dv hd
          (fun ue h => Val.noConfusion h),
        if_pos (by simp [isNullV])]
    have hmv : Cv.mergeVal dv Val.null = dv := by
      cases dv <;> simp [Cv.mergeVal, isNullV]
    rw [hmv, setKey_lookup_self d k0 dv hd]
  | bool b =>
    rw [mergeConfig_cons_found_nondict d k0 _ rest dv hd
          (fun ue h => Val.noConfusion h), if_neg (by simp [isNullV])]
    have hmv : Cv.mergeVal dv (Val.bool b) = Val.bool b := by
      cases dv <;> simp [Cv.mergeVal, isNullV]
    rw [hmv]
  | int n =>
    rw [mergeConfig_cons_found_nondict d k0 _ rest dv hd
          (fun ue h => Val.noConfusion h), if_neg (by simp [isNullV])]
    have hmv : Cv.mergeVal dv (Val.int n) = Val.int n := by
      cases dv <;> simp [Cv.mergeVal, isNullV]
    rw [hmv]
  | float f =>
    rw [mergeConfig_cons_found_nondict d k0 _ rest dv hd
          (fun ue h => Val.noConfusion h), if_neg (by simp [isNullV])]
    have hmv : Cv.mergeVal dv (Val.float f) = Val.float f := by
      cases dv <;> simp [Cv.mergeVal, isNullV]
    rw [hmv]
  | str s =>
    rw [mergeConfig_cons_found_nondict d k0 _ rest dv hd
          (fun ue h => Val.noConfusion h), if_neg (by simp [isNullV])]
    have hmv : Cv.mergeVal dv (Val.str s) = Val.str s := by
      cases dv <;> simp [Cv.mergeVal, isNullV]
    rw [hmv]
  | list xs =>
    rw [mergeConfig_cons_found_nondict d k0 _ rest dv hd
          (fun ue h => Val.noConfusion h), if_neg (by simp [isNullV])]
    have hmv : Cv.mergeVal dv (Val.list xs) = Val.list xs := by
      cases dv <;> simp [Cv.mergeVal, isNullV]
    rw [hmv]

/-- Keys of a merge: the default keys in their order, then the
user-only keys in theirs. -/
theorem keysE_merge : ∀ (d u : Entries), (keysE u).Nodup →
    keysE (Cv.mergeConfig d u)
      = keysE d ++ (keysE u).filter (fun k => !containsE d k)
  | d, .nil, _ => by simp [mergeConfig_nil, keysE]
  | d, .cons k0 v rest, hnodup => by
    obtain ⟨hk0, hnd⟩ := List.nodup_cons.mp (by simpa [keysE] using hnodup)
    rcases hd : lookup d k0 with _ | dv
    · rw [mergeConfig_cons_absent d k0 v rest hd, keysE_merge _ rest hnd,
          keysE_appendE]
      have hcd : containsE d k0 = false := by simp [containsE, hd]
      have hfeq : ∀ x ∈ keysE rest,
          (!containsE (appendE d (.cons k0 v .nil)) x) = (!containsE d x) := by
        intro x hx
        rw [containsE_appendE]
        have hxk : ¬ k0 = x := fun he => hk0 (he ▸ hx)
        simp [containsE, lookup, hxk]
      rw [List.filter_congr hfeq]
      simp [keysE, List.filter_cons, hcd]
    · rw [mergeConfig_cons_found d k0 v rest dv hd, keysE_merge _ rest hnd,
          keysE_setKey d k0 _ (mem_keys_of_lookup_some d k0 dv hd)]
      have hcd : containsE d k0 = true := by simp [containsE, hd]
      have hfeq : ∀ x ∈ keysE rest,
          (!containsE (setKey d k0 (Cv.mergeVal dv v)) x) = (!containsE d x) := by
        intro x hx
        by_cases hxk : k0 = x
        · subst hxk
          simp [containsE, lookup_setKey_self, hd]
        · rw [containsE_setKey_other d k0 x _ hxk]
      rw [List.filter_congr hfeq]
      simp [keysE, List.filter_cons, hcd]

/-- Merging preserves well-formedness. -/
theorem wfE_merge : ∀ (d u : Entries),
    wfE d = true → wfE u = true → wfE (Cv.mergeConfig d u) = true
  | d, .nil, hd, _ => by rw [mergeConfig_nil]; exact hd
  | d, .cons k0 v rest, hd, hu => by
    obtain ⟨hc, hv, hrest⟩ := (wfE_cons_iff k0 v rest).mp hu
    rcases hdl : lookup d k0 with _ | dv
    · rw [mergeConfig_cons_absent d k0 v rest hdl]
      exact wfE_merge _ rest
        (wfE_appendE_single d k0 v hd (by simp [containsE, hdl]) hv) hrest
    · rw [mergeConfig_cons_found d k0 v rest dv hdl]
      refine wfE_merge _ rest (wfE_setKey d k0 _ hd ?_) hrest
      have hdv : wfV dv = true := wfV_of_lookup d k0 dv hd hdl
      cases v with
      | dict ue =>
        cases dv with
        | dict de =>
          simp only [Cv.mergeVal]
          by_cases hde : isEmptyE de = true
          · rw [if_pos hde]; exact hv
          · rw [if_neg hde]
            simp only [wfV]
            exact wfE_merge de ue (by simpa [wfV] using hdv)
              (by simpa [wfV] using hv)
        | null => simpa [Cv.mergeVal, isNullV] using hv
        | bool b => simpa [Cv.mergeVal, isNullV] using hv
        | int n => simpa [Cv.mergeVal, isNullV] using hv
        | float f => simpa [Cv.mergeVal, isNullV] using hv
        | str s => simpa [Cv.mergeVal, isNullV] using hv
        | list xs => simpa [Cv.mergeVal, isNullV] using hv
      | null =>
        have : Cv.mergeVal dv Val.null = dv := by
          cases dv <;> simp [Cv.mergeVal, isNullV]
        rw [this]; exact hdv
      | bool b =>
        have : Cv.mergeVal dv (Val.bool b) = Val.bool b := by
          cases dv <;> simp [Cv.mergeVal, isNullV]
        rw [this]; exact hv
      | int n =>
        have : Cv.mergeVal dv (Val.int n) = Val.int n := by
          cases dv <;> simp [Cv.mergeVal, isNullV]
        rw [this]; exact hv
      | float f =>
        have : Cv.mergeVal dv (Val.float f) = Val.float f := by
          cases dv <;> simp [Cv.mergeVal, isNullV]
        rw [this]; exact hv
      | str s =>
        have : Cv.mergeVal dv (Val.str s) = Val.str s := by
          cases dv <;> simp [Cv.mergeVal, isNullV]
        rw [this]; exact hv
      | list xs =>
        have : Cv.mergeVal dv (Val.list xs) = Val.list xs := by
          cases dv <;> simp [Cv.mergeVal, isNullV]
        rw [this]; exact hv

theorem lookup_sizeOf : ∀ (d : Entries) (k : String) (v : Val),
    lookup d k = some v → sizeOf v < sizeOf d
  | .nil, k, v, h => by simp [lookup] at h
  | .cons k0 v0 rest, k, v, h => by
    by_cases h0 : k0 = k
    · simp only [lookup, if_pos h0] at h
      rw [← Option.some.inj h]
      simp only [Entries.cons.sizeOf_spec]
      omega
    · simp only [lookup, if_neg h0] at h
      have := lookup_sizeOf rest k v h
      simp only [Entries.cons.sizeOf_spec]
      omega

/-- Merging the result of a merge into the same defaults changes
nothing: `_merge_config` is idempotent over a fixed default tree. -/
theorem merge_idem (d x : Entries) (hd : wfE d = true) (hx : wfE x = true) :
    Cv.mergeConfig d (Cv.mergeConfig d x) = Cv.mergeConfig d x := by
  have hndd : (keysE d).Nodup := nodup_keys_of_wfE d hd
  have hndx : (keysE x).Nodup := nodup_keys_of_wfE x hx
  have hwy : wfE (Cv.mergeConfig d x) = true := wfE_merge d x hd hx
  have hndy : (keysE (Cv.mergeConfig d x)).Nodup := nodup_keys_of_wfE _ hwy
  apply extE
  · exact nodup_keys_of_wfE _ (wfE_merge d _ hd hwy)
  · rw [keysE_merge d _ hndy, keysE_merge d x hndx]
    congr 1
    rw [List.filter_append]
    have h1 : (keysE d).filter (fun k => !containsE d k) = [] := by
      rw [List.filter_eq_nil_iff]
      intro a ha
      rw [(containsE_iff_mem_keys d a).mpr ha]
      simp
    have h2 : ((keysE x).filter (fun k => !containsE d k)).filter
        (fun k => !containsE d k) = (keysE x).filter (fun k => !containsE d k) := by
      rw [List.filter_filter]
      apply List.filter_congr
      intro a _
      cases containsE d a <;> simp
    rw [h1, h2, List.nil_append]
  · intro k
    rw [lookup_merge d _ k hndy, lookup_merge d x k hndx]
    rcases hdk : lookup d k with _ | dv
    · rcases hxk : lookup x k with _ | xv <;> simp
    · have hwdv : wfV dv = true := wfV_of_lookup d k dv hd hdk
      rcases hxk : lookup x k with _ | xv
      · show some (Cv.mergeVal dv dv) = some dv
        cases dv with
        | dict de =>
          have hwde : wfE de = true := by simpa [wfV] using hwdv
          by_cases hde : isEmptyE de = true
          · simp [Cv.mergeVal, hde]
          · have hdiag : Cv.mergeConfig de de = de := by
              have h0 := merge_idem de Entries.nil hwde (by simp [wfE])
              rw [mergeConfig_nil] at h0
              exact h0
            simp [Cv.mergeVal, hde, hdiag]
        | null => simp [Cv.mergeVal, isNullV]
        | bool b => simp [Cv.mergeVal, isNullV]
        | int n => simp [Cv.mergeVal, isNullV]
        | float f => simp [Cv.mergeVal, isNullV]
        | str s => simp [Cv.mergeVal, isNullV]
        | list xs => simp [Cv.mergeVal, isNullV]
      · have hwxv : wfV xv = true := wfV_of_lookup x k xv hx hxk
        show some (Cv.mergeVal dv (Cv.mergeVal dv xv)) = some (Cv.mergeVal dv xv)
        cases dv with
        | dict de =>
          have hwde : wfE de = true := by simpa [wfV] using hwdv
          cases xv with
          | dict xe =>
            have hwxe : wfE xe = true := by simpa [wfV] using hwxv
            by_cases hde : isEmptyE de = true
            · simp [Cv.mergeVal, hde]
            · have hid : Cv.mergeConfig de (Cv.mergeConfig de xe)
                  = Cv.mergeConfig de xe := merge_idem de xe hwde hwxe
              simp [Cv.mergeVal, hde, hid]
          | null =>
            by_cases hde : isEmptyE de = true
            · simp [Cv.mergeVal, isNullV, hde]
            · have hdiag : Cv.mergeConfig de de = de := by
                have h0 := merge_idem de Entries.nil hwde (by simp [wfE])
                rw [mergeConfig_nil] at h0
                exact h0
              simp [Cv.mergeVal, isNullV, hde, hdiag]
          | bool b => simp [Cv.mergeVal, isNullV]
          | int n => simp [Cv.mergeVal, isNullV]
          | float f => simp [Cv.mergeVal, isNullV]
          | str s => simp [Cv.mergeVal, isNullV]
          | list xs => simp [Cv.mergeVal, isNullV]
        | null =>
          cases xv <;> simp [Cv.mergeVal, isNullV]
        | bool b =>
          cases xv <;> simp [Cv.mergeVal, isNullV]
        | int n =>
          cases xv <;> simp [Cv.mergeVal, isNullV]
        | float f =>
          cases xv <;> simp [Cv.mergeVal, isNullV]
        | str s =>
          cases xv <;> simp [Cv.mergeVal, isNullV]
        | list xs =>
          cases xv <;> simp [Cv.mergeVal, isNullV]
termination_by sizeOf d
decreasing_by
  all_goals
    (have hs := lookup_sizeOf d k _ hdk
     simp only [Val.dict.sizeOf_spec] at hs
     omega)

theorem mergeVal_scalar (dv v : Val) (hv : scalarOrList v = true) :
    Cv.mergeVal dv v = v := by
  cases v <;> simp [scalarOrList] at hv <;> cases dv <;>
    simp [Cv.mergeVal, isNullV]

/-- Path preservation under `_merge_config`: every key path of the user
document leading to a non-`None` scalar or list survives the merge with
exactly its value. -/
theorem lookupPath_merge : ∀ (path : List String) (d u : Entries) (v : Val),
    wfE u = true → lookupPath u path = some v → scalarOrList v = true →
    lookupPath (Cv.mergeConfig d u) path = some v
  | [], _, u, v, _, hpath, _ => by simp [lookupPath] at hpath
  | [k], d, u, v, hu, hpath, hv => by
    simp only [lookupPath] at hpath ⊢
    rw [lookup_merge d u k (nodup_keys_of_wfE u hu), hpath]
    cases hdk : lookup d k with
    | none => rfl
    | some dv =>
      show some (Cv.mergeVal dv v) = some v
      rw [mergeVal_scalar dv v hv]
  | k :: k2 :: path, d, u, v, hu, hpath, hv => by
    simp only [lookupPath] at hpath ⊢
    rcases husub : lookup u k with _ | usub
    · rw [husub] at hpath
      exact absurd hpath (by simp)
    · rw [husub] at hpath
      cases usub with
      | dict ue =>
        have hwue : wfE ue = true := by
          have := wfV_of_lookup u k _ hu husub
          simpa [wfV] using this
        rw [lookup_merge d u k (nodup_keys_of_wfE u hu), husub]
        rcases hdk : lookup d k with _ | dv
        · exact hpath
        · cases dv with
          | dict de =>
            by_cases hde : isEmptyE de = true
            · simp only [Cv.mergeVal, if_pos hde]
              exact hpath
            · simp only [Cv.mergeVal, if_neg hde]
              exact lookupPath_merge (k2 :: path) de ue v hwue hpath hv
          | null => simp only [Cv.mergeVal, isNullV]; exact hpath
          | bool b => simp only [Cv.mergeVal, isNullV]; exact hpath
          | int n => simp only [Cv.mergeVal, isNullV]; exact hpath
          | float f => simp only [Cv.mergeVal, isNullV]; exact hpath
          | str s => simp only [Cv.mergeVal, isNullV]; exact hpath
          | list xs => simp only [Cv.mergeVal, isNullV]; exact hpath
      | null => exact absurd hpath (by simp)
      | bool b => exact absurd hpath (by simp)
      | int n => exact absurd hpath (by simp)
      | float f => exact absurd hpath (by simp)
      | str s => exact absurd hpath (by simp)
      | list xs => exact absurd hpath (by simp)

/-! ## Helper lemmas for the validator claims -/

theorem mergeVal_nondict (dv v : Val) (hdv : ∀ de, ¬ dv = Val.dict de)
    (hnull : isNullV v = false) : Cv.mergeVal dv v = v := by
  cases dv with
  | dict de => exact absurd rfl (hdv de)
  | null => cases v <;> simp [Cv.mergeVal, isNullV] at hnull ⊢
  | bool b => cases v <;> simp [Cv.mergeVal, isNullV] at hnull ⊢
  | int n => cases v <;> simp [Cv.mergeVal, isNullV] at hnull ⊢
  | float f => cases v <;> simp [Cv.mergeVal, isNullV] at hnull ⊢
  | str s => cases v <;> simp [Cv.mergeVal, isNullV] at hnull ⊢
  | list xs => cases v <;> simp [Cv.mergeVal, isNullV] at hnull ⊢

/-- A non-`None` user value under a non-dict default survives the merge
unchanged at its key. -/
theorem lookup_merge_override (d u : Entries) (key : String) (dv v : Val)
    (hnd : (keysE u).Nodup) (hd : lookup d key = some dv)
    (hdv : ∀ de, ¬ dv = Val.dict de) (hv : lookup u key = some v)
    (hnull : isNullV v = false) :
    lookup (Cv.mergeConfig d u) key = some v := by
  rw [lookup_merge d u key hnd, hd, hv]
  show some (Cv.mergeVal dv v) = some v
  rw [mergeVal_nondict dv v hdv hnull]

/-- A user dict under a nonempty default dict merges recursively at its
key. -/
theorem lookup_merge_section (d u : Entries) (key : String) (ds s : Entries)
    (hnd : (keysE u).Nodup) (hd : lookup d key = some (Val.dict ds))
    (hdne : isEmptyE ds = false) (hs : lookup u key = some (Val.dict s)) :
    lookup (Cv.mergeConfig d u) key
      = some (Val.dict (Cv.mergeConfig ds s)) := by
  rw [lookup_merge d u key hnd, hd, hs]
  show some (Cv.mergeVal (Val.dict ds) (Val.dict s)) = _
  simp [Cv.mergeVal, hdne]

/-- Combined section/field fact used by the per-check conjuncts of C2:
the merged document holds the recursively merged section at `sec`, the
merged section holds the user's non-`None` field value `v` unchanged,
and so does the path `[sec, field]` of the merged document. -/
theorem validate_section_field (P : Entries) (sec field : String)
    (S ds : Entries) (dv v : Val)
    (hP : wfE P = true)
    (hds : lookup Cv.defaultConfig sec = some (Val.dict ds))
    (hdne : isEmptyE ds = false)
    (hdv : lookup ds field = some dv)
    (hdvnd : ∀ de, ¬ dv = Val.dict de)
    (hsec : lookup P sec = some (Val.dict S))
    (hf : lookup S field = some v)
    (hnull : isNullV v = false) :
    lookup (Cv.mergeConfig Cv.defaultConfig P) sec
        = some (Val.dict (Cv.mergeConfig ds S))
    ∧ lookup (Cv.mergeConfig ds S) field = some v
    ∧ lookupPath (Cv.mergeConfig Cv.defaultConfig P) [sec, field] = some v := by
  have hnd := nodup_keys_of_wfE P hP
  have hwS : wfE S = true := by
    have := wfV_of_lookup P sec _ hP hsec
    simpa [wfV] using this
  have hndS := nodup_keys_of_wfE S hwS
  have h1 := lookup_merge_section Cv.defaultConfig P sec ds S hnd hds hdne hsec
  have h2 := lookup_merge_override ds S field dv v hndS hdv hdvnd hf hnull
  refine ⟨h1, h2, ?_⟩
  simp only [lookupPath]
  rw [h1]
  exact h2

/-- A non-`None` user value survives the merge at its key whenever any
default at that key is a non-dict. -/
theorem lookup_merge_user (d u : Entries) (k : String) (v : Val)
    (hnd : (keysE u).Nodup) (hv : lookup u k = some v)
    (hnull : isNullV v = false)
    (hdnd : ∀ dv, lookup d k = some dv → ∀ de, ¬ dv = Val.dict de) :
    lookup (Cv.mergeConfig d u) k = some v := by
  rw [lookup_merge d u k hnd, hv]
  rcases hd : lookup d k with _ | dv
  · rfl
  · exact congrArg some (mergeVal_nondict dv v (hdnd dv hd) hnull)

/-- `validate_section_field` without requiring the field to exist in the
default section: any default at the field (if present) must be a
non-dict. -/
theorem validate_section_field_user (P : Entries) (sec field : String)
    (S ds : Entries) (v : Val)
    (hP : wfE P = true)
    (hds : lookup Cv.defaultConfig sec = some (Val.dict ds))
    (hdne : isEmptyE ds = false)
    (hdnd : ∀ dv, lookup ds field = some dv → ∀ de, ¬ dv = Val.dict de)
    (hsec : lookup P sec = some (Val.dict S))
    (hf : lookup S field = some v)
    (hnull : isNullV v = false) :
    lookup (Cv.mergeConfig Cv.defaultConfig P) sec
        = some (Val.dict (Cv.mergeConfig ds S))
    ∧ lookup (Cv.mergeConfig ds S) field = some v
    ∧ lookupPath (Cv.mergeConfig Cv.defaultConfig P) [sec, field] = some v := by
  have hnd := nodup_keys_of_wfE P hP
  have hwS : wfE S = true := by
    have := wfV_of_lookup P sec _ hP hsec
    simpa [wfV] using this
  have hndS := nodup_keys_of_wfE S hwS
  have h1 := lookup_merge_section Cv.defaultConfig P sec ds S hnd hds hdne hsec
  have h2 := lookup_merge_user ds S field v hndS hf hnull hdnd
  refine ⟨h1, h2, ?_⟩
  simp only [lookupPath]
  rw [h1]
  exact h2

theorem lookup_allStrE : ∀ (d : Entries) (k : String) (v : Val),
    allStrE d = true → lookup d k = some v → ∀ de, ¬ v = Val.dict de
  | .nil, k, v, _, h => by simp [lookup] at h
  | .cons k0 v0 rest, k, v, hall, h => by
    simp only [allStrE, Bool.and_eq_true] at hall
    by_cases h0 : k0 = k
    · simp only [lookup, if_pos h0] at h
      cases v0 with
      | str s =>
        intro de he
        exact Val.noConfusion ((Option.some.inj h).trans he)
      | null => simp at hall
      | bool b => simp at hall
      | int n => simp at hall
      | float f => simp at hall
      | list xs => simp at hall
      | dict e => simp at hall
    · simp only [lookup, if_neg h0] at h
      exact lookup_allStrE rest k v hall.2 h

/-- A fold that only ever appends warnings never loses one. -/
theorem foldl_warn_mono {α : Type} (f : List String → α → List String)
    (hmono : ∀ ws a m, m ∈ ws → m ∈ f ws a) :
    ∀ (l : List α) (ws : List String) (m : String), m ∈ ws → m ∈ l.foldl f ws
  | [], _, _, hm => hm
  | b :: t, ws, m, hm => foldl_warn_mono f hmono t (f ws b) m (hmono ws b m hm)

/-- A fold that only ever appends warnings contains every warning one of
its elements contributes. -/
theorem foldl_warn_mem {α : Type} (f : List String → α → List String)
    (hmono : ∀ ws a m, m ∈ ws → m ∈ f ws a) (a : α) (m : String)
    (hadd : ∀ ws, m ∈ f ws a) :
    ∀ (l : List α), a ∈ l → ∀ ws : List String, m ∈ l.foldl f ws
  | [], ha, _ => absurd ha (by simp)
  | b :: t, ha, ws => by
    rcases List.mem_cons.mp ha with h | h
    · subst h
      exact foldl_warn_mono f hmono t (f ws a) m (hadd ws)
    · exact foldl_warn_mem f hmono a m hadd t h (f ws b)

theorem mem_zip_range_of_getElem : ∀ (pal : List Val) (i : Nat) (c : Val),
    pal[i]? = some c → (i, c) ∈ (List.range pal.length).zip pal
  | [], i, c, h => by simp at h
  | p :: rest, 0, c, h => by
    simp only [List.getElem?_cons_zero] at h
    rw [← Option.some.inj h, List.length_cons, List.range_succ_eq_map]
    exact List.mem_cons_self _ _
  | p :: rest, i + 1, c, h => by
    simp only [List.getElem?_cons_succ] at h
    have ih := mem_zip_range_of_getElem rest i c h
    rw [List.length_cons, List.range_succ_eq_map, List.zip_cons_cons]
    refine List.mem_cons_of_mem _ ?_
    rw [List.zip_map_left]
    exact List.mem_map.mpr ⟨(i, c), ih, rfl⟩

theorem mem_validateKeybindingsGo : ∀ (kb : Entries) (action : String) (v : Val),
    lookup kb action = some v →
    (∀ s, v = Val.str s → (pyStrip s).data.isEmpty = true) →
    ("Keybinding for \x27" ++ action ++ "\x27 should be a non-empty string")
      ∈ Cv.validateKeybindingsGo kb
  | .nil, action, v, h, _ => by simp [lookup] at h
  | .cons a w rest, action, v, h, hv => by
    by_cases h0 : a = action
    · subst h0
      have hw : w = v := by simpa [lookup] using h
      subst hw
      cases w with
      | str s =>
        have he := hv s rfl
        have hmem : ("Keybinding for \x27" ++ a ++ "\x27 should be a non-empty string")
            ∈ (if (pyStrip s).data.isEmpty then
                ["Keybinding for \x27" ++ a ++ "\x27 should be a non-empty string"]
               else ([] : List String)) := by
          rw [if_pos he]
          exact List.mem_singleton.mpr rfl
        exact List.mem_append_left _ hmem
      | null => exact List.mem_append_left _ (List.mem_singleton.mpr rfl)
      | bool b => exact List.mem_append_left _ (List.mem_singleton.mpr rfl)
      | int n => exact List.mem_append_left _ (List.mem_singleton.mpr rfl)
      | float f => exact List.mem_append_left _ (List.mem_singleton.mpr rfl)
      | list xs => exact List.mem_append_left _ (List.mem_singleton.mpr rfl)
      | dict e => exact List.mem_append_left _ (List.mem_singleton.mpr rfl)
    · simp only [lookup, if_neg h0] at h
      exact List.mem_append_right _ (mem_validateKeybindingsGo rest action v h hv)

theorem mem_validatePluginNames : ∀ (vs : List Val) (c : Val), c ∈ vs →
    (∀ s, ¬ c = Val.str s) →
    ("Plugin name should be string, got: " ++ pyStrV c)
      ∈ Cv.validatePluginNames vs
  | [], c, hc, _ => absurd hc (by simp)
  | w :: rest, c, hc, hns => by
    rcases List.mem_cons.mp hc with h | h
    · subst h
      cases c with
      | str s => exact absurd rfl (hns s)
      | null => exact List.mem_append_left _ (List.mem_singleton.mpr rfl)
      | bool b => exact List.mem_append_left _ (List.mem_singleton.mpr rfl)
      | int n => exact List.mem_append_left _ (List.mem_singleton.mpr rfl)
      | float f => exact List.mem_append_left _ (List.mem_singleton.mpr rfl)
      | list xs => exact List.mem_append_left _ (List.mem_singleton.mpr rfl)
      | dict e => exact List.mem_append_left _ (List.mem_singleton.mpr rfl)
    · exact List.mem_append_right _ (mem_validatePluginNames rest c h hns)

/-! ## Claims about `ConfigValidator` -/

/-- C3: `validate` is idempotent on the returned document — validating
the validator's own output merges every key onto an equal or deeper
value, changing nothing.  `wfE X` states the Python-guaranteed fact that
every dict in the input has distinct keys. -/
theorem validate_idempotent (X : Entries) (hX : wfE X = true) :
    (Cv.validate (Cv.validate X).1).1 = (Cv.validate X).1 := by
  show Cv.mergeConfig Cv.defaultConfig (Cv.mergeConfig Cv.defaultConfig X)
      = Cv.mergeConfig Cv.defaultConfig X
  exact merge_idem Cv.defaultConfig X (by decide) hX

/-- Witness for C3 at a concrete partial document with an override, a
`None`, a new key, and a nested section. -/
theorem validate_idempotent_witness :
    (Cv.validate (Cv.validate (entries
      [("scrollback_lines", Val.int 99),
       ("gpu_acceleration", Val.null),
       ("custom_key", Val.str "x"),
       ("session", Val.dict (entries [("max_tabs", Val.int 3),
                                      ("extra", Val.list [Val.str "e"])]))])).1).1
      = (Cv.validate (entries
      [("scrollback_lines", Val.int 99),
       ("gpu_acceleration", Val.null),
       ("custom_key", Val.str "x"),
       ("session", Val.dict (entries [("max_tabs", Val.int 3),
                                      ("extra", Val.list [Val.str "e"])]))])).1 :=
  validate_idempotent _ (by decide)

/-- C2: (a) every key path of the partial document `P` holding a
non-`None` scalar or list value appears in `validate P`'s document with
exactly `P`'s value (the merge stores failing values unchanged, and the
field validators never mutate); and every bounds/type check of the field
validators fires on a failing stored value: a failing theme color,
palette length, palette entry, font size, font family, keybinding combo,
`scrollback_lines`, `gpu_acceleration`, `session.max_tabs`,
`session.save_on_exit`, `session.restore_on_start`,
`plugins.auto_load`, `plugins.enabled` (shape and elements),
`plugins.disabled` (shape and elements),
`performance.max_scrollback`, `performance.terminal_bell`,
`performance.cursor_blink` and `performance.cursor_shape` each leave the
value stored unchanged and append their warning. -/
theorem validate_preserves_values (P : Entries) (hP : wfE P = true) :
    (∀ (path : List String) (v : Val), lookupPath P path = some v →
        scalarOrList v = true → lookupPath (Cv.validate P).1 path = some v)
    ∧ (∀ (t : Entries) (ck : String) (v : Val),
        lookup P "theme" = some (Val.dict t) →
        (ck = "background_color" ∨ ck = "foreground_color" ∨ ck = "cursor_color") →
        lookup t ck = some v → isNullV v = false → Cv.isValidColor v = false →
        lookupPath (Cv.validate P).1 ["theme", ck] = some v
        ∧ ("Invalid color format for " ++ ck ++ ": " ++ pyStrV v)
            ∈ (Cv.validate P).2)
    ∧ (∀ (t : Entries) (pal : List Val),
        lookup P "theme" = some (Val.dict t) →
        lookup t "palette" = some (Val.list pal) → ¬ pal.length = 16 →
        lookupPath (Cv.validate P).1 ["theme", "palette"] = some (Val.list pal)
        ∧ ("Palette should have 16 colors, got " ++ toString pal.length)
            ∈ (Cv.validate P).2)
    ∧ (∀ (t : Entries) (pal : List Val) (i : Nat) (c : Val),
        lookup P "theme" = some (Val.dict t) →
        lookup t "palette" = some (Val.list pal) →
        pal[i]? = some c → Cv.isValidColor c = false →
        lookupPath (Cv.validate P).1 ["theme", "palette"] = some (Val.list pal)
        ∧ ("Invalid color in palette at index " ++ toString i ++ ": " ++ pyStrV c)
            ∈ (Cv.validate P).2)
    ∧ (∀ (f : Entries) (v : Val),
        lookup P "font" = some (Val.dict f) →
        lookup f "size" = some v → isNullV v = false →
        (Cv.pyIsNum v = false ∨ Cv.pyNumLeZero v = true) →
        lookupPath (Cv.validate P).1 ["font", "size"] = some v
        ∧ ("Font size should be a positive number, got: " ++ pyStrV v)
            ∈ (Cv.validate P).2)
    ∧ (∀ (f : Entries) (v : Val),
        lookup P "font" = some (Val.dict f) →
        lookup f "family" = some v → isNullV v = false →
        (∀ s, v = Val.str s → (pyStrip s).data.isEmpty = true) →
        lookupPath (Cv.validate P).1 ["font", "family"] = some v
        ∧ ("Font family should be a non-empty string, got: " ++ pyStrV v)
            ∈ (Cv.validate P).2)
    ∧ (∀ (kb : Entries) (action : String) (v : Val),
        lookup P "keybindings" = some (Val.dict kb) →
        lookup kb action = some v → isNullV v = false →
        (∀ s, v = Val.str s → (pyStrip s).data.isEmpty = true) →
        lookupPath (Cv.validate P).1 ["keybindings", action] = some v
        ∧ ("Keybinding for \x27" ++ action ++ "\x27 should be a non-empty string")
            ∈ (Cv.validate P).2)
    ∧ (∀ v : Val, lookup P "scrollback_lines" = some v → isNullV v = false →
        (Cv.pyIsInt v = false ∨ Cv.pyIntNum v < 0) →
        lookup (Cv.validate P).1 "scrollback_lines" = some v
        ∧ ("Scrollback lines should be a non-negative integer, got: " ++ pyStrV v)
            ∈ (Cv.validate P).2)
    ∧ (∀ v : Val, lookup P "gpu_acceleration" = some v → isNullV v = false →
        Cv.pyIsBool v = false →
        lookup (Cv.validate P).1 "gpu_acceleration" = some v
        ∧ ("GPU acceleration should be true/false, got: " ++ pyStrV v)
            ∈ (Cv.validate P).2)
    ∧ (∀ (S : Entries) (v : Val), lookup P "session" = some (Val.dict S) →
        lookup S "max_tabs" = some v → isNullV v = false →
        (Cv.pyIsInt v = false ∨ Cv.pyIntNum v < 1 ∨ Cv.pyIntNum v > 50) →
        lookupPath (Cv.validate P).1 ["session", "max_tabs"] = some v
        ∧ ("max_tabs should be between 1 and 50, got: " ++ pyStrV v)
            ∈ (Cv.validate P).2)
    ∧ (∀ (S : Entries) (v : Val), lookup P "session" = some (Val.dict S) →
        lookup S "save_on_exit" = some v → isNullV v = false →
        Cv.pyIsBool v = false →
        lookupPath (Cv.validate P).1 ["session", "save_on_exit"] = some v
        ∧ ("save_on_exit should be true/false, got: " ++ pyStrV v)
            ∈ (Cv.validate P).2)
    ∧ (∀ (S : Entries) (v : Val), lookup P "session" = some (Val.dict S) →
        lookup S "restore_on_start" = some v → isNullV v = false →
        Cv.pyIsBool v = false →
        lookupPath (Cv.validate P).1 ["session", "restore_on_start"] = some v
        ∧ ("restore_on_start should be true/false, got: " ++ pyStrV v)
            ∈ (Cv.validate P).2)
    ∧ (∀ (ps : Entries) (v : Val), lookup P "plugins" = some (Val.dict ps) →
        lookup ps "auto_load" = some v → isNullV v = false →
        Cv.pyIsBool v = false →
        lookupPath (Cv.validate P).1 ["plugins", "auto_load"] = some v
        ∧ ("auto_load should be true/false, got: " ++ pyStrV v)
            ∈ (Cv.validate P).2)
    ∧ (∀ (ps : Entries) (v : Val), lookup P "plugins" = some (Val.dict ps) →
        lookup ps "enabled" = some v → isNullV v = false →
        (∀ xs, ¬ v = Val.list xs) →
        lookupPath (Cv.validate P).1 ["plugins", "enabled"] = some v
        ∧ "enabled should be a list of plugin names" ∈ (Cv.validate P).2)
    ∧ (∀ (ps : Entries) (vs : List Val) (c : Val),
        lookup P "plugins" = some (Val.dict ps) →
        lookup ps "enabled" = some (Val.list vs) → c ∈ vs →
        (∀ s, ¬ c = Val.str s) →
        lookupPath (Cv.validate P).1 ["plugins", "enabled"] = some (Val.list vs)
        ∧ ("Plugin name should be string, got: " ++ pyStrV c) ∈ (Cv.validate P).2)
    ∧ (∀ (ps : Entries) (v : Val), lookup P "plugins" = some (Val.dict ps) →
        lookup ps "disabled" = some v → isNullV v = false →
        (∀ xs, ¬ v = Val.list xs) →
        lookupPath (Cv.validate P).1 ["plugins", "disabled"] = some v
        ∧ "disabled should be a list of plugin names" ∈ (Cv.validate P).2)
    ∧ (∀ (ps : Entries) (vs : List Val) (c : Val),
        lookup P "plugins" = some (Val.dict ps) →
        lookup ps "disabled" = some (Val.list vs) → c ∈ vs →
        (∀ s, ¬ c = Val.str s) →
        lookupPath (Cv.validate P).1 ["plugins", "disabled"] = some (Val.list vs)
        ∧ ("Plugin name should be string, got: " ++ pyStrV c) ∈ (Cv.validate P).2)
    ∧ (∀ (pe : Entries) (v : Val), lookup P "performance" = some (Val.dict pe) →
        lookup pe "max_scrollback" = some v → isNullV v = false →
        (Cv.pyIsInt v = false ∨ Cv.pyIntNum v < 100 ∨ Cv.pyIntNum v > 1000000) →
        lookupPath (Cv.validate P).1 ["performance", "max_scrollback"] = some v
        ∧ ("max_scrollback should be between 100 and 1000000, got: " ++ pyStrV v)
            ∈ (Cv.validate P).2)
    ∧ (∀ (pe : Entries) (v : Val), lookup P "performance" = some (Val.dict pe) →
        lookup pe "terminal_bell" = some v → isNullV v = false →
        Cv.pyIsBool v = false →
        lookupPath (Cv.validate P).1 ["performance", "terminal_bell"] = some v
        ∧ ("terminal_bell should be true/false, got: " ++ pyStrV v)
            ∈ (Cv.validate P).2)
    ∧ (∀ (pe : Entries) (v : Val), lookup P "performance" = some (Val.dict pe) →
        lookup pe "cursor_blink" = some v → isNullV v = false →
        Cv.pyIsBool v = false →
        lookupPath (Cv.validate P).1 ["performance", "cursor_blink"] = some v
        ∧ ("cursor_blink should be true/false, got: " ++ pyStrV v)
            ∈ (Cv.validate P).2)
    ∧ (∀ (pe : Entries) (v : Val), lookup P "performance" = some (Val.dict pe) →
        lookup pe "cursor_shape" = some v → isNullV v = false →
        (∀ cs, v = Val.str cs → cs ≠ "block" ∧ cs ≠ "ibeam" ∧ cs ≠ "underline") →
        lookupPath (Cv.validate P).1 ["performance", "cursor_shape"] = some v
        ∧ ("cursor_shape should be one of "
            ++ pyStrV (Val.list [Val.str "block", Val.str "ibeam", Val.str "underline"])
            ++ ", got: " ++ pyStrV v) ∈ (Cv.validate P).2) := by
  have hnd : (keysE P).Nodup := nodup_keys_of_wfE P hP
  refine ⟨?_, ?_, ?_, ?_, ?_, ?_, ?_, ?_, ?_, ?_, ?_, ?_, ?_, ?_, ?_, ?_, ?_,
    ?_, ?_, ?_, ?_⟩
  · intro path v hpath hv
    exact lookupPath_merge path Cv.defaultConfig P v hP hpath hv
  · intro t ck v hsec hck hlk hnull hinv
    obtain ⟨c0, hdv⟩ : ∃ c0 : String,
        lookup Cv.defaultTheme ck = some (Val.str c0) := by
      rcases hck with h | h | h <;> subst h
      · exact ⟨_, rfl⟩
      · exact ⟨_, rfl⟩
      · exact ⟨_, rfl⟩
    obtain ⟨hsecM, hfM, hpathM⟩ := validate_section_field P "theme" ck t
      Cv.defaultTheme (Val.str c0) v hP rfl rfl hdv
      (fun de h => Val.noConfusion h) hsec hlk hnull
    refine ⟨hpathM, ?_⟩
    show _ ∈ (Cv.validate P).2
    simp only [Cv.validate]
    refine List.mem_append_left _ (List.mem_append_left _ (List.mem_append_left _
      (List.mem_append_left _ (List.mem_append_left _ (List.mem_append_left _
        (List.mem_append_left _ ?_))))))
    rw [hsecM]
    show _ ∈ Cv.validateTheme (Val.dict (Cv.mergeConfig Cv.defaultTheme t))
    rw [Cv.validateTheme]
    refine List.mem_append_left _ ?_
    have hckl : ck ∈ ["background_color", "foreground_color", "cursor_color"] := by
      rcases hck with h | h | h <;> simp [h]
    refine foldl_warn_mem _ ?_ ck _ ?_ _ hckl []
    · intro ws a m hm
      beta_reduce
      split <;> try exact hm
      split <;> try exact hm
      exact List.mem_append_left _ hm
    · intro ws
      beta_reduce
      rw [hfM]
      show _ ∈ if !Cv.isValidColor v then
          ws ++ ["Invalid color format for " ++ ck ++ ": " ++ pyStrV v] else ws
      rw [if_pos (by simp [hinv])]
      exact List.mem_append_right _ (List.mem_singleton.mpr rfl)
  · intro t pal hsec hlk hlen
    obtain ⟨hsecM, hfM, hpathM⟩ := validate_section_field P "theme" "palette" t
      Cv.defaultTheme (Val.list Cv.defaultPalette) (Val.list pal) hP rfl rfl rfl
      (fun de h => Val.noConfusion h) hsec hlk rfl
    refine ⟨hpathM, ?_⟩
    show _ ∈ (Cv.validate P).2
    simp only [Cv.validate]
    refine List.mem_append_left _ (List.mem_append_left _ (List.mem_append_left _
      (List.mem_append_left _ (List.mem_append_left _ (List.mem_append_left _
        (List.mem_append_left _ ?_))))))
    rw [hsecM]
    show _ ∈ Cv.validateTheme (Val.dict (Cv.mergeConfig Cv.defaultTheme t))
    rw [Cv.validateTheme]
    refine List.mem_append_right _ ?_
    rw [hfM]
    show _ ∈ (if !(pal.length = 16) then
        ["Palette should have 16 colors, got " ++ toString pal.length] else [])
      ++ ((List.range pal.length).zip pal).foldl
        (fun ws ic =>
          if !Cv.isValidColor ic.2 then
            ws ++ ["Invalid color in palette at index " ++ toString ic.1
              ++ ": " ++ pyStrV ic.2]
          else ws) []
    refine List.mem_append_left _ ?_
    rw [if_pos (by simp [hlen])]
    exact List.mem_singleton.mpr rfl
  · intro t pal i c hsec hlk hic hinvc
    obtain ⟨hsecM, hfM, hpathM⟩ := validate_section_field P "theme" "palette" t
      Cv.defaultTheme (Val.list Cv.defaultPalette) (Val.list pal) hP rfl rfl rfl
      (fun de h => Val.noConfusion h) hsec hlk rfl
    refine ⟨hpathM, ?_⟩
    show _ ∈ (Cv.validate P).2
    simp only [Cv.validate]
    refine List.mem_append_left _ (List.mem_append_left _ (List.mem_append_left _
      (List.mem_append_left _ (List.mem_append_left _ (List.mem_append_left _
        (List.mem_append_left _ ?_))))))
    rw [hsecM]
    show _ ∈ Cv.validateTheme (Val.dict (Cv.mergeConfig Cv.defaultTheme t))
    rw [Cv.validateTheme]
    refine List.mem_append_right _ ?_
    rw [hfM]
    show _ ∈ (if !(pal.length = 16) then
        ["Palette should have 16 colors, got " ++ toString pal.length] else [])
      ++ ((List.range pal.length).zip pal).foldl
        (fun ws ic =>
          if !Cv.isValidColor ic.2 then
            ws ++ ["Invalid color in palette at index " ++ toString ic.1
              ++ ": " ++ pyStrV ic.2]
          else ws) []
    refine List.mem_append_right _ ?_
    refine foldl_warn_mem _ ?_ (i, c) _ ?_ _
      (mem_zip_range_of_getElem pal i c hic) []
    · intro ws a m hm
      beta_reduce
      split <;> try exact hm
      exact List.mem_append_left _ hm
    · intro ws
      beta_reduce
      show _ ∈ if !Cv.isValidColor c then
          ws ++ ["Invalid color in palette at index " ++ toString i
            ++ ": " ++ pyStrV c] else ws
      rw [if_pos (by simp [hinvc])]
      exact List.mem_append_right _ (List.mem_singleton.mpr rfl)
  · intro f v hsec hlk hnull hfail
    obtain ⟨hsecM, hfM, hpathM⟩ := validate_section_field P "font" "size" f
      Cv.defaultFont (Val.int 12) v hP rfl rfl rfl
      (fun de h => Val.noConfusion h) hsec hlk hnull
    refine ⟨hpathM, ?_⟩
    show _ ∈ (Cv.validate P).2
    simp only [Cv.validate]
    refine List.mem_append_left _ (List.mem_append_left _ (List.mem_append_left _
      (List.mem_append_left _ (List.mem_append_left _ (List.mem_append_left _
        (List.mem_append_right _ ?_))))))
    rw [hsecM]
    show _ ∈ Cv.validateFont (Val.dict (Cv.mergeConfig Cv.defaultFont f))
    rw [Cv.validateFont]
    refine List.mem_append_left _ ?_
    rw [hfM]
    show _ ∈ if !Cv.pyIsNum v || Cv.pyNumLeZero v then
        ["Font size should be a positive number, got: " ++ pyStrV v] else []
    rw [if_pos (by rcases hfail with h | h <;> simp [h])]
    exact List.mem_singleton.mpr rfl
  · intro f v hsec hlk hnull hfail
    obtain ⟨hsecM, hfM, hpathM⟩ := validate_section_field P "font" "family" f
      Cv.defaultFont (Val.str "Monospace") v hP rfl rfl rfl
      (fun de h => Val.noConfusion h) hsec hlk hnull
    refine ⟨hpathM, ?_⟩
    show _ ∈ (Cv.validate P).2
    simp only [Cv.validate]
    refine List.mem_append_left _ (List.mem_append_left _ (List.mem_append_left _
      (List.mem_append_left _ (List.mem_append_left _ (List.mem_append_left _
        (List.mem_append_right _ ?_))))))
    rw [hsecM]
    show _ ∈ Cv.validateFont (Val.dict (Cv.mergeConfig Cv.defaultFont f))
    rw [Cv.validateFont]
    refine List.mem_append_right _ ?_
    rw [hfM]
    cases v with
    | str fs =>
      show _ ∈ if (pyStrip fs).data.isEmpty then
          ["Font family should be a non-empty string, got: " ++ fs] else []
      rw [if_pos (hfail fs rfl)]
      exact List.mem_singleton.mpr rfl
    | null => simp [isNullV] at hnull
    | bool b => exact List.mem_singleton.mpr rfl
    | int n => exact List.mem_singleton.mpr rfl
    | float fl => exact List.mem_singleton.mpr rfl
    | list xs => exact List.mem_singleton.mpr rfl
    | dict e => exact List.mem_singleton.mpr rfl
  · intro kb action v hsec hlk hnull hfail
    obtain ⟨hsecM, hfM, hpathM⟩ := validate_section_field_user P "keybindings"
      action kb Cv.defaultKeybindings v hP rfl rfl
      (fun dv hdv => lookup_allStrE Cv.defaultKeybindings action dv rfl hdv)
      hsec hlk hnull
    refine ⟨hpathM, ?_⟩
    show _ ∈ (Cv.validate P).2
    simp only [Cv.validate]
    refine List.mem_append_left _ (List.mem_append_left _ (List.mem_append_left _
      (List.mem_append_left _ (List.mem_append_left _ ?_))))
    refine List.mem_append_right _ ?_
    rw [hsecM]
    show _ ∈ Cv.validateKeybindings
      (Val.dict (Cv.mergeConfig Cv.defaultKeybindings kb))
    rw [Cv.validateKeybindings]
    exact mem_validateKeybindingsGo _ action v hfM hfail
  · intro v hlk hnull hfail
    have hmerged : lookup (Cv.mergeConfig Cv.defaultConfig P) "scrollback_lines"
        = some v :=
      lookup_merge_override Cv.defaultConfig P "scrollback_lines" (Val.int 1000)
        v hnd rfl (fun de h => Val.noConfusion h) hlk hnull
    have hws : Cv.validateScrollback v
        = ["Scrollback lines should be a non-negative integer, got: " ++ pyStrV v] := by
      rw [Cv.validateScrollback, if_neg (by simp [hnull]), if_pos ?_]
      rcases hfail with h | h
      · simp [h]
      · simp [h]
    refine ⟨hmerged, ?_⟩
    show _ ∈ (Cv.validate P).2
    simp only [Cv.validate]
    refine List.mem_append_left _ (List.mem_append_left _
      (List.mem_append_left _ (List.mem_append_left _
        (List.mem_append_right _ ?_))))
    rw [hmerged]
    simp [hws]
  · intro v hlk hnull hb
    have hmerged : lookup (Cv.mergeConfig Cv.defaultConfig P) "gpu_acceleration"
        = some v :=
      lookup_merge_override Cv.defaultConfig P "gpu_acceleration" (Val.bool true)
        v hnd rfl (fun de h => Val.noConfusion h) hlk hnull
    have hws : Cv.validateGpu v
        = ["GPU acceleration should be true/false, got: " ++ pyStrV v] := by
      rw [Cv.validateGpu, if_neg (by simp [hnull]), if_pos (by simp [hb])]
    refine ⟨hmerged, ?_⟩
    show _ ∈ (Cv.validate P).2
    simp only [Cv.validate]
    refine List.mem_append_left _ (List.mem_append_left _
      (List.mem_append_left _ (List.mem_append_right _ ?_)))
    rw [hmerged]
    simp [hws]
  · intro S v hsec hf hnull hfail
    obtain ⟨hsecM, hfM, hpathM⟩ := validate_section_field P "session" "max_tabs" S
      Cv.defaultSession (Val.int 10) v hP rfl rfl rfl
      (fun de h => Val.noConfusion h) hsec hf hnull
    refine ⟨hpathM, ?_⟩
    show _ ∈ (Cv.validate P).2
    simp only [Cv.validate]
    refine List.mem_append_left _ (List.mem_append_left _
      (List.mem_append_right _ ?_))
    rw [hsecM]
    show _ ∈ Cv.validateSession (Val.dict (Cv.mergeConfig Cv.defaultSession S))
    rw [Cv.validateSession]
    refine List.mem_append_left _ (List.mem_append_left _ ?_)
    rw [hfM]
    show _ ∈ if !Cv.pyIsInt v || Cv.pyIntNum v < 1 || Cv.pyIntNum v > 50 then
        ["max_tabs should be between 1 and 50, got: " ++ pyStrV v] else []
    rw [if_pos (by rcases hfail with h | h | h <;> simp [h])]
    exact List.mem_singleton.mpr rfl
  · intro S v hsec hf hnull hb
    obtain ⟨hsecM, hfM, hpathM⟩ := validate_section_field P "session"
      "save_on_exit" S Cv.defaultSession (Val.bool true) v hP rfl rfl rfl
      (fun de h => Val.noConfusion h) hsec hf hnull
    refine ⟨hpathM, ?_⟩
    show _ ∈ (Cv.validate P).2
    simp only [Cv.validate]
    refine List.mem_append_left _ (List.mem_append_left _
      (List.mem_append_right _ ?_))
    rw [hsecM]
    show _ ∈ Cv.validateSession (Val.dict (Cv.mergeConfig Cv.defaultSession S))
    rw [Cv.validateSession]
    refine List.mem_append_left _ (List.mem_append_right _ ?_)
    rw [hfM]
    show _ ∈ if !Cv.pyIsBool v then
        ["save_on_exit should be true/false, got: " ++ pyStrV v] else []
    rw [if_pos (by simp [hb])]
    exact List.mem_singleton.mpr rfl
  · intro S v hsec hf hnull hb
    obtain ⟨hsecM, hfM, hpathM⟩ := validate_section_field P "session"
      "restore_on_start" S Cv.defaultSession (Val.bool true) v hP rfl rfl rfl
      (fun de h => Val.noConfusion h) hsec hf hnull
    refine ⟨hpathM, ?_⟩
    show _ ∈ (Cv.validate P).2
    simp only [Cv.validate]
    refine List.mem_append_left _ (List.mem_append_left _
      (List.mem_append_right _ ?_))
    rw [hsecM]
    show _ ∈ Cv.validateSession (Val.dict (Cv.mergeConfig Cv.defaultSession S))
    rw [Cv.validateSession]
    refine List.mem_append_right _ ?_
    rw [hfM]
    show _ ∈ if !Cv.pyIsBool v then
        ["restore_on_start should be true/false, got: " ++ pyStrV v] else []
    rw [if_pos (by simp [hb])]
    exact List.mem_singleton.mpr rfl
  · intro ps v hsec hf hnull hb
    obtain ⟨hsecM, hfM, hpathM⟩ := validate_section_field P "plugins" "auto_load"
      ps Cv.defaultPlugins (Val.bool true) v hP rfl rfl rfl
      (fun de h => Val.noConfusion h) hsec hf hnull
    refine ⟨hpathM, ?_⟩
    show _ ∈ (Cv.validate P).2
    simp only [Cv.validate]
    refine List.mem_append_left _ (List.mem_append_right _ ?_)
    rw [hsecM]
    show _ ∈ Cv.validatePlugins (Val.dict (Cv.mergeConfig Cv.defaultPlugins ps))
    rw [Cv.validatePlugins]
    refine List.mem_append_left _ (List.mem_append_left _ ?_)
    rw [hfM]
    show _ ∈ if !Cv.pyIsBool v then
        ["auto_load should be true/false, got: " ++ pyStrV v] else []
    rw [if_pos (by simp [hb])]
    exact List.mem_singleton.mpr rfl
  · intro ps v hsec hf hnull hnl
    obtain ⟨hsecM, hfM, hpathM⟩ := validate_section_field P "plugins" "enabled"
      ps Cv.defaultPlugins (Val.list []) v hP rfl rfl rfl
      (fun de h => Val.noConfusion h) hsec hf hnull
    refine ⟨hpathM, ?_⟩
    show _ ∈ (Cv.validate P).2
    simp only [Cv.validate]
    refine List.mem_append_left _ (List.mem_append_right _ ?_)
    rw [hsecM]
    show _ ∈ Cv.validatePlugins (Val.dict (Cv.mergeConfig Cv.defaultPlugins ps))
    rw [Cv.validatePlugins]
    refine List.mem_append_left _ (List.mem_append_right _ ?_)
    rw [hfM]
    cases v with
    | list xs => exact absurd rfl (hnl xs)
    | null => simp [isNullV] at hnull
    | bool b => exact List.mem_singleton.mpr rfl
    | int n => exact List.mem_singleton.mpr rfl
    | float fl => exact List.mem_singleton.mpr rfl
    | str s => exact List.mem_singleton.mpr rfl
    | dict e => exact List.mem_singleton.mpr rfl
  · intro ps vs c hsec hf hcvs hns
    obtain ⟨hsecM, hfM, hpathM⟩ := validate_section_field P "plugins" "enabled"
      ps Cv.defaultPlugins (Val.list []) (Val.list vs) hP rfl rfl rfl
      (fun de h => Val.noConfusion h) hsec hf rfl
    refine ⟨hpathM, ?_⟩
    show _ ∈ (Cv.validate P).2
    simp only [Cv.validate]
    refine List.mem_append_left _ (List.mem_append_right _ ?_)
    rw [hsecM]
    show _ ∈ Cv.validatePlugins (Val.dict (Cv.mergeConfig Cv.defaultPlugins ps))
    rw [Cv.validatePlugins]
    refine List.mem_append_left _ (List.mem_append_right _ ?_)
    rw [hfM]
    exact mem_validatePluginNames vs c hcvs hns
  · intro ps v hsec hf hnull hnl
    obtain ⟨hsecM, hfM, hpathM⟩ := validate_section_field P "plugins" "disabled"
      ps Cv.defaultPlugins (Val.list []) v hP rfl rfl rfl
      (fun de h => Val.noConfusion h) hsec hf hnull
    refine ⟨hpathM, ?_⟩
    show _ ∈ (Cv.validate P).2
    simp only [Cv.validate]
    refine List.mem_append_left _ (List.mem_append_right _ ?_)
    rw [hsecM]
    show _ ∈ Cv.validatePlugins (Val.dict (Cv.mergeConfig Cv.defaultPlugins ps))
    rw [Cv.validatePlugins]
    refine List.mem_append_right _ ?_
    rw [hfM]
    cases v with
    | list xs => exact absurd rfl (hnl xs)
    | null => simp [isNullV] at hnull
    | bool b => exact List.mem_singleton.mpr rfl
    | int n => exact List.mem_singleton.mpr rfl
    | float fl => exact List.mem_singleton.mpr rfl
    | str s => exact List.mem_singleton.mpr rfl
    | dict e => exact List.mem_singleton.mpr rfl
  · intro ps vs c hsec hf hcvs hns
    obtain ⟨hsecM, hfM, hpathM⟩ := validate_section_field P "plugins" "disabled"
      ps Cv.defaultPlugins (Val.list []) (Val.list vs) hP rfl rfl rfl
      (fun de h => Val.noConfusion h) hsec hf rfl
    refine ⟨hpathM, ?_⟩
    show _ ∈ (Cv.validate P).2
    simp only [Cv.validate]
    refine List.mem_append_left _ (List.mem_append_right _ ?_)
    rw [hsecM]
    show _ ∈ Cv.validatePlugins (Val.dict (Cv.mergeConfig Cv.defaultPlugins ps))
    rw [Cv.validatePlugins]
    refine List.mem_append_right _ ?_
    rw [hfM]
    exact mem_validatePluginNames vs c hcvs hns
  · intro pe v hsec hf hnull hfail
    obtain ⟨hsecM, hfM, hpathM⟩ := validate_section_field P "performance"
      "max_scrollback" pe Cv.defaultPerformance (Val.int 10000) v hP rfl rfl rfl
      (fun de h => Val.noConfusion h) hsec hf hnull
    refine ⟨hpathM, ?_⟩
    show _ ∈ (Cv.validate P).2
    simp only [Cv.validate]
    refine List.mem_append_right _ ?_
    rw [hsecM]
    show _ ∈ Cv.validatePerformance
      (Val.dict (Cv.mergeConfig Cv.defaultPerformance pe))
    rw [Cv.validatePerformance]
    refine List.mem_append_left _ (List.mem_append_left _
      (List.mem_append_left _ ?_))
    rw [hfM]
    show _ ∈ if !Cv.pyIsInt v || Cv.pyIntNum v < 100 || Cv.pyIntNum v > 1000000 then
        ["max_scrollback should be between 100 and 1000000, got: " ++ pyStrV v]
      else []
    rw [if_pos (by rcases hfail with h | h | h <;> simp [h])]
    exact List.mem_singleton.mpr rfl
  · intro pe v hsec hf hnull hb
    obtain ⟨hsecM, hfM, hpathM⟩ := validate_section_field P "performance"
      "terminal_bell" pe Cv.defaultPerformance (Val.bool true) v hP rfl rfl rfl
      (fun de h => Val.noConfusion h) hsec hf hnull
    refine ⟨hpathM, ?_⟩
    show _ ∈ (Cv.validate P).2
    simp only [Cv.validate]
    refine List.mem_append_right _ ?_
    rw [hsecM]
    show _ ∈ Cv.validatePerformance
      (Val.dict (Cv.mergeConfig Cv.defaultPerformance pe))
    rw [Cv.validatePerformance]
    refine List.mem_append_left _ (List.mem_append_left _
      (List.mem_append_right _ ?_))
    rw [hfM]
    show _ ∈ if !Cv.pyIsBool v then
        ["terminal_bell should be true/false, got: " ++ pyStrV v] else []
    rw [if_pos (by simp [hb])]
    exact List.mem_singleton.mpr rfl
  · intro pe v hsec hf hnull hb
    obtain ⟨hsecM, hfM, hpathM⟩ := validate_section_field P "performance"
      "cursor_blink" pe Cv.defaultPerformance (Val.bool true) v hP rfl rfl rfl
      (fun de h => Val.noConfusion h) hsec hf hnull
    refine ⟨hpathM, ?_⟩
    show _ ∈ (Cv.validate P).2
    simp only [Cv.validate]
    refine List.mem_append_right _ ?_
    rw [hsecM]
    show _ ∈ Cv.validatePerformance
      (Val.dict (Cv.mergeConfig Cv.defaultPerformance pe))
    rw [Cv.validatePerformance]
    refine List.mem_append_left _ (List.mem_append_right _ ?_)
    rw [hfM]
    show _ ∈ if !Cv.pyIsBool v then
        ["cursor_blink should be true/false, got: " ++ pyStrV v] else []
    rw [if_pos (by simp [hb])]
    exact List.mem_singleton.mpr rfl
  · intro pe v hsec hf hnull hfail
    obtain ⟨hsecM, hfM, hpathM⟩ := validate_section_field P "performance"
      "cursor_shape" pe Cv.defaultPerformance (Val.str "block") v hP rfl rfl rfl
      (fun de h => Val.noConfusion h) hsec hf hnull
    refine ⟨hpathM, ?_⟩
    show _ ∈ (Cv.validate P).2
    simp only [Cv.validate]
    refine List.mem_append_right _ ?_
    rw [hsecM]
    show _ ∈ Cv.validatePerformance
      (Val.dict (Cv.mergeConfig Cv.defaultPerformance pe))
    rw [Cv.validatePerformance]
    refine List.mem_append_right _ ?_
    rw [hfM]
    cases v with
    | str cs =>
      obtain ⟨h1, h2, h3⟩ := hfail cs rfl
      show _ ∈ if !(cs = "block" || cs = "ibeam" || cs = "underline" : Bool) then
          ["cursor_shape should be one of "
            ++ pyStrV (Val.list [Val.str "block", Val.str "ibeam",
                Val.str "underline"])
            ++ ", got: " ++ pyStrV (Val.str cs)] else []
      rw [if_pos (by simp [h1, h2, h3])]
      exact List.mem_singleton.mpr rfl
    | null => simp [isNullV] at hnull
    | bool b => exact List.mem_singleton.mpr rfl
    | int n => exact List.mem_singleton.mpr rfl
    | float fl => exact List.mem_singleton.mpr rfl
    | list xs => exact List.mem_singleton.mpr rfl
    | dict e => exact List.mem_singleton.mpr rfl

/-- Witness for C2 at the concrete documents `sampleBadConfig` and
`sampleBadPlugins`: every field validator's failing value is stored
unchanged and every warning is collected. -/
theorem validate_preserves_values_witness :
    (lookupPath (Cv.validate sampleBadConfig).1 ["gpu_acceleration"]
        = some (Val.str "yes"))
    ∧ (lookupPath (Cv.validate sampleBadConfig).1 ["theme", "background_color"]
        = some (Val.str "red")
      ∧ ("Invalid color format for " ++ "background_color" ++ ": "
          ++ pyStrV (Val.str "red")) ∈ (Cv.validate sampleBadConfig).2)
    ∧ (lookupPath (Cv.validate sampleBadConfig).1 ["theme", "palette"]
        = some (Val.list [Val.str "#000000", Val.int 7])
      ∧ ("Palette should have 16 colors, got " ++ toString (2 : Nat))
          ∈ (Cv.validate sampleBadConfig).2)
    ∧ (lookupPath (Cv.validate sampleBadConfig).1 ["theme", "palette"]
        = some (Val.list [Val.str "#000000", Val.int 7])
      ∧ ("Invalid color in palette at index " ++ toString (1 : Nat) ++ ": "
          ++ pyStrV (Val.int 7)) ∈ (Cv.validate sampleBadConfig).2)
    ∧ (lookupPath (Cv.validate sampleBadConfig).1 ["font", "size"]
        = some (Val.int 0)
      ∧ ("Font size should be a positive number, got: " ++ pyStrV (Val.int 0))
          ∈ (Cv.validate sampleBadConfig).2)
    ∧ (lookupPath (Cv.validate sampleBadConfig).1 ["font", "family"]
        = some (Val.str " ")
      ∧ ("Font family should be a non-empty string, got: "
          ++ pyStrV (Val.str " ")) ∈ (Cv.validate sampleBadConfig).2)
    ∧ (lookupPath (Cv.validate sampleBadConfig).1 ["keybindings", "copy"]
        = some (Val.int 3)
      ∧ ("Keybinding for \x27" ++ "copy" ++ "\x27 should be a non-empty string")
          ∈ (Cv.validate sampleBadConfig).2)
    ∧ (lookup (Cv.validate sampleBadConfig).1 "scrollback_lines"
        = some (Val.int (-5))
      ∧ ("Scrollback lines should be a non-negative integer, got: "
          ++ pyStrV (Val.int (-5))) ∈ (Cv.validate sampleBadConfig).2)
    ∧ (lookup (Cv.validate sampleBadConfig).1 "gpu_acceleration"
        = some (Val.str "yes")
      ∧ ("GPU acceleration should be true/false, got: " ++ pyStrV (Val.str "yes"))
          ∈ (Cv.validate sampleBadConfig).2)
    ∧ (lookupPath (Cv.validate sampleBadConfig).1 ["session", "max_tabs"]
        = some (Val.int 99)
      ∧ ("max_tabs should be between 1 and 50, got: " ++ pyStrV (Val.int 99))
          ∈ (Cv.validate sampleBadConfig).2)
    ∧ (lookupPath (Cv.validate sampleBadConfig).1 ["session", "save_on_exit"]
        = some (Val.int 1)
      ∧ ("save_on_exit should be true/false, got: " ++ pyStrV (Val.int 1))
          ∈ (Cv.validate sampleBadConfig).2)
    ∧ (lookupPath (Cv.validate sampleBadConfig).1 ["session", "restore_on_start"]
        = some (Val.str "y")
      ∧ ("restore_on_start should be true/false, got: " ++ pyStrV (Val.str "y"))
          ∈ (Cv.validate sampleBadConfig).2)
    ∧ (lookupPath (Cv.validate sampleBadConfig).1 ["plugins", "auto_load"]
        = some (Val.int 2)
      ∧ ("auto_load should be true/false, got: " ++ pyStrV (Val.int 2))
          ∈ (Cv.validate sampleBadConfig).2)
    ∧ (lookupPath (Cv.validate sampleBadPlugins).1 ["plugins", "enabled"]
        = some (Val.str "x")
      ∧ "enabled should be a list of plugin names"
          ∈ (Cv.validate sampleBadPlugins).2)
    ∧ (lookupPath (Cv.validate sampleBadConfig).1 ["plugins", "enabled"]
        = some (Val.list [Val.int 9])
      ∧ ("Plugin name should be string, got: " ++ pyStrV (Val.int 9))
          ∈ (Cv.validate sampleBadConfig).2)
    ∧ (lookupPath (Cv.validate sampleBadPlugins).1 ["plugins", "disabled"]
        = some (Val.int 0)
      ∧ "disabled should be a list of plugin names"
          ∈ (Cv.validate sampleBadPlugins).2)
    ∧ (lookupPath (Cv.validate sampleBadConfig).1 ["plugins", "disabled"]
        = some (Val.list [Val.int 4])
      ∧ ("Plugin name should be string, got: " ++ pyStrV (Val.int 4))
          ∈ (Cv.validate sampleBadConfig).2)
    ∧ (lookupPath (Cv.validate sampleBadConfig).1 ["performance", "max_scrollback"]
        = some (Val.int 5)
      ∧ ("max_scrollback should be between 100 and 1000000, got: "
          ++ pyStrV (Val.int 5)) ∈ (Cv.validate sampleBadConfig).2)
    ∧ (lookupPath (Cv.validate sampleBadConfig).1 ["performance", "terminal_bell"]
        = some (Val.int 0)
      ∧ ("terminal_bell should be true/false, got: " ++ pyStrV (Val.int 0))
          ∈ (Cv.validate sampleBadConfig).2)
    ∧ (lookupPath (Cv.validate sampleBadConfig).1 ["performance", "cursor_blink"]
        = some (Val.str "no")
      ∧ ("cursor_blink should be true/false, got: " ++ pyStrV (Val.str "no"))
          ∈ (Cv.validate sampleBadConfig).2)
    ∧ (lookupPath (Cv.validate sampleBadConfig).1 ["performance", "cursor_shape"]
        = some (Val.str "beam")
      ∧ ("cursor_shape should be one of "
          ++ pyStrV (Val.list [Val.str "block", Val.str "ibeam", Val.str "underline"])
          ++ ", got: " ++ pyStrV (Val.str "beam"))
          ∈ (Cv.validate sampleBadConfig).2) := by
  obtain ⟨c1, c2, c3, c4, c5, c6, c7, c8, c9, c10, c11, c12, c13, _, c15, _,
    c17, c18, c19, c20, c21⟩ :=
    validate_preserves_values sampleBadConfig (by decide)
  obtain ⟨_, _, _, _, _, _, _, _, _, _, _, _, _, d14, _, d16, _, _, _, _, _⟩ :=
    validate_preserves_values sampleBadPlugins (by decide)
  refine ⟨?_, ?_, ?_, ?_, ?_, ?_, ?_, ?_, ?_, ?_, ?_, ?_, ?_, ?_, ?_, ?_, ?_,
    ?_, ?_, ?_, ?_⟩
  · exact c1 ["gpu_acceleration"] (Val.str "yes") rfl rfl
  · exact c2 _ "background_color" (Val.str "red") rfl (Or.inl rfl) rfl rfl rfl
  · exact c3 _ [Val.str "#000000", Val.int 7] rfl rfl (by decide)
  · exact c4 _ [Val.str "#000000", Val.int 7] 1 (Val.int 7) rfl rfl rfl rfl
  · exact c5 _ (Val.int 0) rfl rfl rfl (Or.inr (by decide))
  · exact c6 _ (Val.str " ") rfl rfl rfl (by intro s h; cases h; rfl)
  · exact c7 _ "copy" (Val.int 3) rfl rfl rfl (fun s h => Val.noConfusion h)
  · exact c8 (Val.int (-5)) rfl rfl (Or.inr (by decide))
  · exact c9 (Val.str "yes") rfl rfl rfl
  · exact c10 _ (Val.int 99) rfl rfl rfl (Or.inr (Or.inr (by decide)))
  · exact c11 _ (Val.int 1) rfl rfl rfl rfl
  · exact c12 _ (Val.str "y") rfl rfl rfl rfl
  · exact c13 _ (Val.int 2) rfl rfl rfl rfl
  · exact d14 _ (Val.str "x") rfl rfl rfl (fun xs h => Val.noConfusion h)
  · exact c15 _ [Val.int 9] (Val.int 9) rfl rfl (List.mem_singleton.mpr rfl)
      (fun s h => Val.noConfusion h)
  · exact d16 _ (Val.int 0) rfl rfl rfl (fun xs h => Val.noConfusion h)
  · exact c17 _ [Val.int 4] (Val.int 4) rfl rfl (List.mem_singleton.mpr rfl)
      (fun s h => Val.noConfusion h)
  · exact c18 _ (Val.int 5) rfl rfl rfl (Or.inr (Or.inl (by decide)))
  · exact c19 _ (Val.int 0) rfl rfl rfl rfl
  · exact c20 _ (Val.str "no") rfl rfl rfl rfl
  · exact c21 _ (Val.str "beam") rfl rfl rfl
      (by intro cs h; cases h; exact ⟨by decide, by decide, by decide⟩)

end NewTerm
